import Mathlib

set_option maxRecDepth 40000

/-!
Verification of the tic-tac-toe engine in `main.py`.

Board model: the Python board is a list of nine one-character strings,
`" "` (empty), `"X"` (the human player) and `"O"` (the computer).  Cells
are modelled by the inductive type `Cell`; a board is a `List Cell` and
the indexing `board[i]` of the source is modelled by `cellAt` (total,
with the empty cell as default; all indices used by the program are in
range).  The mutating search `minimax` is modelled by explicit state
passing: the Lean function returns the board next to the score/move
pair, so that the restore discipline of the source (`board[move] =
EMPTY`) is visible to the caller.  Python recursion is modelled with a
fuel parameter; `minimax` instantiates the fuel with one more than the
number of empty cells, and fuel independence is proved below.
-/

/-- Cell values: `EMPTY = " "`, `PLAYER = "X"` (MarkA), `COMPUTER = "O"` (MarkB). -/
inductive Cell : Type
  | Empty
  | MarkA
  | MarkB
deriving DecidableEq

/-- A board is the Python 9-cell list `board`. -/
abbrev Board := List Cell

/-- The read `board[i]` (all reads performed by the program are in range). -/
def cellAt (b : Board) (i : Nat) : Cell := b.getD i Cell.Empty

/-- The literal `win_lines` table of `check_win`. -/
def win_lines : List (Nat × Nat × Nat) :=
  [(0, 1, 2), (3, 4, 5), (6, 7, 8), (0, 3, 6), (1, 4, 7), (2, 5, 8), (0, 4, 8), (2, 4, 6)]

/-- `check_win(board, symbol)`: any of the 8 lines fully occupied by `symbol`. -/
def check_win (b : Board) (symbol : Cell) : Bool :=
  win_lines.any (fun l =>
    cellAt b l.1 == symbol && cellAt b l.2.1 == symbol && cellAt b l.2.2 == symbol)

/-- `check_draw(board)`: every cell differs from `EMPTY`. -/
def check_draw (b : Board) : Bool :=
  b.all (fun cell => !(cell == Cell.Empty))

/-- `get_available_moves(board)`: the indices whose cell is `EMPTY`, in
enumeration order (the Python list comprehension over `enumerate(board)`,
rendered as a filter of the index range). -/
def get_available_moves (b : Board) : List Nat :=
  (List.range b.length).filter (fun i => cellAt b i == Cell.Empty)

/-- `make_move(board, index, symbol)`: the assignment `board[index] = symbol`. -/
def make_move (b : Board) (index : Nat) (symbol : Cell) : Board :=
  b.set index symbol

/-- Scores as Python produces them: `-float("inf")`, plain integers, `float("inf")`. -/
inductive PScore : Type
  | negInf
  | fin (s : Int)
  | posInf
deriving DecidableEq

/-- The Python `<` on scores (float/int comparison; infinities compare as usual). -/
def PScore.ltb : PScore → PScore → Bool
  | .negInf, .negInf => false
  | .negInf, _ => true
  | .fin _, .negInf => false
  | .fin a, .fin b => a < b
  | .fin _, .posInf => true
  | .posInf, _ => false

/-- The Python `>` on scores. -/
def PScore.gtb (a b : PScore) : Bool := PScore.ltb b a

/-- The symbol placed by the side to move: `COMPUTER if is_maximizing else PLAYER`. -/
def mark (isMax : Bool) : Cell := if isMax then Cell.MarkB else Cell.MarkA

/-- The comparison used to update the running best: strict `>` when maximizing,
strict `<` when minimizing. -/
def pbetter (isMax : Bool) (score best : PScore) : Bool :=
  if isMax then PScore.gtb score best else PScore.ltb score best

/-- The `for move in get_available_moves(board)` loop of `minimax`: place the
mark, recurse (through `go`), restore `EMPTY`, update the best score and move
by strict comparison.  The board is threaded to model the in-place mutation. -/
def minimaxLoop (go : Board → Bool → Board × PScore × Option Nat) (isMax : Bool) :
    Board → List Nat → PScore → Option Nat → Board × PScore × Option Nat
  | b, [], bestScore, bestMove => (b, bestScore, bestMove)
  | b, m :: rest, bestScore, bestMove =>
    let r := go (b.set m (mark isMax)) (!isMax)
    let b2 := r.1.set m Cell.Empty
    if pbetter isMax r.2.1 bestScore then
      minimaxLoop go isMax b2 rest r.2.1 (some m)
    else
      minimaxLoop go isMax b2 rest bestScore bestMove

/-- `minimax(board, is_maximizing)` with explicit recursion fuel.  Terminal
checks in source order, then the candidate loop starting from `-inf`/`+inf`
and no move. -/
def minimaxF : Nat → Board → Bool → Board × PScore × Option Nat
  | 0, b, _ => (b, PScore.negInf, none)
  | fuel + 1, b, isMax =>
    if check_win b Cell.MarkB then (b, PScore.fin 1, none)
    else if check_win b Cell.MarkA then (b, PScore.fin (-1), none)
    else if check_draw b then (b, PScore.fin 0, none)
    else
      minimaxLoop (minimaxF fuel) isMax b (get_available_moves b)
        (if isMax then PScore.negInf else PScore.posInf) none

/-- `minimax` proper: the recursion depth is bounded by the number of empty
cells, so one more than that is enough fuel (proved below as fuel
independence). -/
def minimax (b : Board) (isMax : Bool) : Board × PScore × Option Nat :=
  minimaxF (b.count Cell.Empty + 1) b isMax

/-- `get_computer_move(board)`: the minimax move, falling back to
`get_available_moves(board)[0]`.  Indexing `[0]` of an empty list raises
`IndexError` in Python; this is modelled by `none`. -/
def get_computer_move (b : Board) : Option Nat :=
  match (minimax b true).2.2 with
  | some m => some m
  | none => (get_available_moves b).head?

/-- The fresh board of `play_game`: `[EMPTY] * 9`. -/
def emptyBoard : Board := List.replicate 9 Cell.Empty

/-- Whose turn it is inside the `play_game` loop. -/
inductive Turn : Type
  | human
  | computer
deriving DecidableEq

/-- A game position: still playing (with the given side to move) or ended. -/
inductive GState : Type
  | play (t : Turn)
  | over
deriving DecidableEq

/-- The states `play_game` can reach: the human starts on the fresh board and
may pick any empty cell (`get_player_move` validates exactly that); the
computer plays `get_computer_move`; after each move the loop stops when the
mover has a line or the board is full, else the turn flips. -/
inductive Reach : Board → GState → Prop
  | init : Reach emptyBoard (GState.play Turn.human)
  | humanCont {b : Board} {m : Nat} :
      Reach b (GState.play Turn.human) →
      m ∈ get_available_moves b →
      check_win (make_move b m Cell.MarkA) Cell.MarkA = false →
      check_draw (make_move b m Cell.MarkA) = false →
      Reach (make_move b m Cell.MarkA) (GState.play Turn.computer)
  | humanEnd {b : Board} {m : Nat} :
      Reach b (GState.play Turn.human) →
      m ∈ get_available_moves b →
      (check_win (make_move b m Cell.MarkA) Cell.MarkA = true ∨
        check_draw (make_move b m Cell.MarkA) = true) →
      Reach (make_move b m Cell.MarkA) GState.over
  | compCont {b : Board} {m : Nat} :
      Reach b (GState.play Turn.computer) →
      get_computer_move b = some m →
      check_win (make_move b m Cell.MarkB) Cell.MarkB = false →
      check_draw (make_move b m Cell.MarkB) = false →
      Reach (make_move b m Cell.MarkB) (GState.play Turn.human)
  | compEnd {b : Board} {m : Nat} :
      Reach b (GState.play Turn.computer) →
      get_computer_move b = some m →
      (check_win (make_move b m Cell.MarkB) Cell.MarkB = true ∨
        check_draw (make_move b m Cell.MarkB) = true) →
      Reach (make_move b m Cell.MarkB) GState.over

/-!
Fast mirror of the search on ternary-encoded boards.  A board is a
base-3 numeral (digit `i` is cell `i`: 0 empty, 1 MarkA, 2 MarkB) and a
search outcome is packed as `score * 10 + move` with score codes
0 = `-inf`, 1 = `fin (-1)`, 2 = `fin 0`, 3 = `fin 1`, 4 = `+inf` and move
code 9 = `none`.  Two tables list the packed outcome of the search for
every position below `3 ^ 9` and each value of the maximizing flag; a
decidable sweep checks the defining equations of the search at every
position, and an induction below turns that into correctness of the
tables.  All functions are written with the primitive `Nat` operations
so that the whole sweep evaluates by literal arithmetic.
-/

/-- Powers of three up to the board size. -/
def pow3 : Nat → Nat
  | 0 => 1 | 1 => 3 | 2 => 9 | 3 => 27 | 4 => 81
  | 5 => 243 | 6 => 729 | 7 => 2187 | _ => 6561

/-- Digit `i` of the ternary board code. -/
def d3 (n i : Nat) : Nat := Nat.mod (Nat.div n (pow3 i)) 3

/-- `check_win` on encoded boards (symbol code `s`). -/
def winN (n s : Nat) : Bool :=
  Bool.or (Bool.or (Bool.or
    (Bool.and (Nat.beq (d3 n 0) s) (Bool.and (Nat.beq (d3 n 1) s) (Nat.beq (d3 n 2) s)))
    (Bool.and (Nat.beq (d3 n 3) s) (Bool.and (Nat.beq (d3 n 4) s) (Nat.beq (d3 n 5) s))))
    (Bool.or
    (Bool.and (Nat.beq (d3 n 6) s) (Bool.and (Nat.beq (d3 n 7) s) (Nat.beq (d3 n 8) s)))
    (Bool.and (Nat.beq (d3 n 0) s) (Bool.and (Nat.beq (d3 n 3) s) (Nat.beq (d3 n 6) s)))))
    (Bool.or (Bool.or
    (Bool.and (Nat.beq (d3 n 1) s) (Bool.and (Nat.beq (d3 n 4) s) (Nat.beq (d3 n 7) s)))
    (Bool.and (Nat.beq (d3 n 2) s) (Bool.and (Nat.beq (d3 n 5) s) (Nat.beq (d3 n 8) s))))
    (Bool.or
    (Bool.and (Nat.beq (d3 n 0) s) (Bool.and (Nat.beq (d3 n 4) s) (Nat.beq (d3 n 8) s)))
    (Bool.and (Nat.beq (d3 n 2) s) (Bool.and (Nat.beq (d3 n 4) s) (Nat.beq (d3 n 6) s)))))

/-- `check_draw` on encoded boards. -/
def fullN (n : Nat) : Bool :=
  Bool.and (Bool.not (Nat.beq (d3 n 0) 0)) (Bool.and (Bool.not (Nat.beq (d3 n 1) 0))
  (Bool.and (Bool.not (Nat.beq (d3 n 2) 0)) (Bool.and (Bool.not (Nat.beq (d3 n 3) 0))
  (Bool.and (Bool.not (Nat.beq (d3 n 4) 0)) (Bool.and (Bool.not (Nat.beq (d3 n 5) 0))
  (Bool.and (Bool.not (Nat.beq (d3 n 6) 0)) (Bool.and (Bool.not (Nat.beq (d3 n 7) 0))
  (Bool.not (Nat.beq (d3 n 8) 0)))))))))

/-- `get_available_moves` on encoded boards. -/
def movesN (n : Nat) : List Nat :=
  List.filter (fun i => Nat.beq (d3 n i) 0) [0, 1, 2, 3, 4, 5, 6, 7, 8]

/-- Best-score update on packed outcomes (strict comparison of score codes). -/
def updN (isMax : Bool) (m best score : Nat) : Nat :=
  cond (cond isMax (Nat.blt (Nat.div best 10) score) (Nat.blt score (Nat.div best 10)))
    (Nat.add (Nat.mul score 10) m) best

/-- The candidate loop on encoded boards. -/
def loopN (go : Nat → Bool → Nat) (isMax : Bool) (n : Nat) : List Nat → Nat → Nat
  | [], best => best
  | m :: rest, best =>
    match Nat.div (go (Nat.add n (Nat.mul (cond isMax 2 1) (pow3 m))) (Bool.not isMax)) 10 with
    | 0 => loopN go isMax n rest (updN isMax m best 0)
    | s + 1 => loopN go isMax n rest (updN isMax m best (Nat.add s 1))

/-- The fueled search on encoded boards, mirror of `minimaxF`. -/
def fastF : Nat → Nat → Bool → Nat
  | 0, _, _ => 9
  | fuel + 1, n, isMax =>
    if winN n 2 then 39
    else if winN n 1 then 19
    else if fullN n then 29
    else loopN (fastF fuel) isMax n (movesN n) (cond isMax 9 49)

/-- Ternary encoding of a board. -/
def cellN : Cell → Nat
  | Cell.Empty => 0
  | Cell.MarkA => 1
  | Cell.MarkB => 2

/-- Ternary encoding of a board, least-significant digit first. -/
def enc : Board → Nat
  | [] => 0
  | c :: rest => cellN c + 3 * enc rest

/-- Score decoding (packed score code to `PScore`). -/
def decS : Nat → PScore
  | 0 => PScore.negInf
  | 1 => PScore.fin (-1)
  | 2 => PScore.fin 0
  | 3 => PScore.fin 1
  | _ => PScore.posInf

/-- Move decoding (move code to optional index). -/
def decM (m : Nat) : Option Nat :=
  if m == 9 then none else some m

/-- Packed search outcomes, maximizing side, for every position below 19683. -/
def tblMax : Nat := 6794413631968551261789784441070061660277746661713498936740938894079594954404634836498350156821052187312641327055026076032922812292445518850722570088504544298208916923872721422120042117735844327973347564423772959647397378508637015919096189883334102626952393338297651661591600209268201544956688066477116608899017454958752004047528429967702598578635071869919829338704847215197035011653831475585173556062105595312127283690101132369027874702101913836351695446621164850559323287317248473630323387589040350037067894103600398627475243810973244622928859251614582695116225434837261383134887448327427595651207177048310374660803870311176971087529652356268118152635222334875204411948415208426667415153100156792239530338805935272969389508424941304861216908578058034632057415769436608962560435475986472574130050668450277191119844031223286231575907937223383374399388563395673803950288728370124244972201823549546429988717220937266265760499359326765963056286033786272891796008723525133045451423957351620078624602951871419578644061689595622334618914422134941636273382703886362086622768215699209445550884287984801228485732096769559866899312523684860947718772545430827582151380239739176123522678259642027198343852083091828548141980300456561505519808185154323194553580332550281557219386522738580713709515151645194617024179120060770424738800589858327176203849575277143568431496182007757489902562378889066361448992755971895634020504866521958759087612528898843633295718485050064426027195432355112287605099122280617171301195612974110909252519116357971807238370350266754755771968456428580538859846167017910490707896087237713094145813097535568382768253721560888089705430750793230310425254215054217860723948752832709628962201767658911462873805549507562073903866645136327798743005390573028263989478164060449977277808275934129009249183655020501346448237993177191597757824600755061683829380116005473602379269494188670597415469278048519157851473560061588184080880085067066650991074081888083309899185754116432905277839578613810115337795590796434171175372569268382546757027585996236453502681170979677785587442497294067075237493032624130507663183483672656956723087708417898334437681939733843844537026097874093737365633910457616450825879612801423200119801758542807881590422368986991818370647527252738713719293636079600653184223505276062749815058812338965811842235279924504702217071854601203088738059306677006443551901028989958381967761984692792343259541485969207719766488792013133899442311900836000502024585478136101422521266777290739097259272040309834063427107729704745747920329478413371266470535922331546708375123244805858373016376351655368127110856889594652211842258242918441025995739412905971206056214438401274279151290729298221360640617607271984271486755994191494999170462292194055141133588114683690039816992252304604592141980027774349801844732682289474841431523524043157349018342163630244556637340127823790897561025681964882683900582382378579051140767734090656511281894517169203121971227641854466751247323321221553829483914691575780695622885971195630199074462487611958702588788732178393524664675370938854857700466424304463527295979997585946591979911473641139705499782690263045639805894936177587290846748379746244348603807160134773399665302567526146371157854809129455835293147922016108668665657272417597474141977846322333822151224043963114135240772986665078929641117481479304596940862008071528944971618969803029296005999419530349333669480188560819832948961653159949045037934421588879645448933516232381255797211964178692604390825736354107976339234100562393708393133159767791455953161256806400281668209969520220059899945269766063480311269949898331389792159251281353825844719713378059003090340905997262519916769847102137566804449584596505723065235696241511716830313921467431697992054728612926093892243400462070720556076872387323107992159080555982655834438534429057649100868104360035562821610332413787689346241542480625629633477752550151244035513363365014831101649541495394116301507659339435819377501424494871727570372130317566303737783565193659232155969386527598688938598348384218886757534832387912851928478040907385005148004541477079713434606107825056235049853710950885592928712604729706783698584537814392168591602939486595125959684921677519190827858339187567905675378058337422164245358881074516440072960203908757777359124579036577332870844842396057174116903871967326397321990130727224765828166395950247215703327404560980662715085825318524512330058330068820768361636037958973421889639504469653700447022052543580187750408314139422699089642801643849606987307196854701944762219248734493854753256595294290318969808193341454980386988769964836841739131141632640963561847891152515232001359347401403713678878619555885765079213069156595976060012809148536697468276062020577213730892030017170597975285239782794308400872307800335550871608826403224983064257024868066478476538710513096555513078333019327756763564718071556964591160465319009678145104578706365138693686956405134166560431154789129550344084186070364776280219874126717001857944542229504098598716044709774868229601119026429840373259343116449823342378623623026976411081396278995108522455420824270299420546802702339699420832919939425039864339780009528408146387913138725007790004239017326269966142700539806455522098213512572604588429777215224191591014831126652973597390891809260812714195151772111275870159180647980319815407506608875348045324013325193226849438972945593682253870110983792549564873746089655894859656741542069452162007866895679531277325935707297835797033373486944725399915168124796269271152321062863482986172705717633041179941423197084231770839468939026432617860421841084305924772584425004570853437766412199632024603432938685757314054299448717093234563162551425161433002234763419340208120574547104185964149456260657976015231346295259626970043986580793853680155460077301356480449307236873636048279639188291207997811146106991953263514283612689264007895713262344876930661587080969728312039126259824204463798383195058720817943289782135722635801813486968083946295124859925561129213096177743904422256541120531751972559240671386596258749281885104225829485083771574556618888801273323582624615047326519040530129139196650511409584258444969105877734835967441897079188384654570743333307437447797843330313092818582171026965246193706336972627674455271102947559551570997425687479133664014666561161795033307834980009528547540843675041451570357538266713656104584635741467715316498263563826516746990715993664380796758405658877425890386288485801175375098822263432478620323390680184827283351911327491188427333090484130882424973730051253499723300559526132909306760467910443379740364234933785530469709386074513066256424189367664547686061281593269182677347090870992888734250947625280275631766916154653980020657562196895484987939164073993600176655664764668193113910849437091126487565791314168585621803829268945369346449341676073124778064116624619999140690344897233779121311969903104418219659558552415418886428009523792181761946968517145099640903161892970624952036262405045078645648131649086813013762768695006278560220864365423696653283417704964836118521537525747733248640662084287358000468081609952477166395625690634583106084826598485427092415571422569123107393465374486087084772278003689094275533508794422922701059179159287372176873491169520064811895460890824722051793036569792826741055845671198041393242179203484165122007399985275749319300111162622323674214767867186254735752175476633336081692013139136043404181842232577788858444355772211969518354243665581161494414984214252302910323420057910606575767830526407120935056251105664664952616496230423090530573854119406143260568544472353755731941402919904191571174333950882667243811053120795904086785069625068314214285014651457157676733926711306815630125474642466122021275868083012901593206373336804145703197830367738582398329096582589306005311309632291185646413856884748763186492864173684034779711580375312383376053885654046009051881547738849168433529587153652821808130514808411717536919234935327315956022765592538786423313944074926105062334794670246598671826588418926500550354081959918461667904208556791736721047297760330154976356302576301275139361928133285127345249875946148624976272041963806557339295058942305555710661640891037863635823247477626021898353456876017802992761566547779562741293172420063525868088584257789296624128370691221446815925034906266699372261932398408031833600974661304007820170281046006565331081127909574047359716053911005029023662260345065471311983279384944103228887868392525322990181162992612217564641695328990003235293555225711251646537863797137691852195580284069238007509975892037051663108517640789832567123383738249843842467401550769077071607985682796874019302334558521620957954290250112641661250745115835280148137353440367316100662268381191120654883111339123991408279416946381507147333740779992731595519938366315994830628540537533843151118152266633623172925052505658306641790350661686593256512362236307107062229904190769371729248367175603866980663336650958131470360905720029388098389901157483083925145758924162524078412796221737978547761255357265784953002835703475525860667327691332246558465338211567720345573954491097915995849588095865075256301777016703896398769500283520394963787569918704843571712313710514497893528153592526337315594667697942598806487554850316907410386405632422406037257766931314613149732433630071829254148673004230703210761205647019967609846183604269259004687916641425192878222039918402001823640213070775339789029864349903797750513274566388176850246698359064651826123584095352664743055745146268660745390981983664709399231196582159928359815440347182319553328762387117648043592097090720673534085274393249660270318267060307239220260199308493352611914626973585568390270845801788035368130884739289684461725752779882299893356897795019449583035087156993808668842470437550436888444886964422919690299789265660233207041390217365923356133909462408195725804395060025405846656546456784126501078191364890838399755158657745709775699807008714178644704774007778295128593050169079011709681385923075323647618500723465012066308042012856020633680817469022330240887500265049150686210552297074242148711616358392329110735224137006823884876343270614289383225261672194179870512733660632049425346598865475233526290353286743346098737428257317018707141163542984785000677261081991020653203671242080637855298599308519037961034039201934434980449794389219975979128025386229822519679692790286299148738639123131941917408859397907505426845751586862182673965112809344704873828152863869801882461488298089023254152816913846718381392685143460327052056154483070380022507107523571257072273813342160063206338473949834815263107114845295641293423062603610229919851571691815957745544040709165060609507107985359546837855545239491416037327940701839288152321445959759254015868316825679164935851047671650331740867342554818382707908126003527026003579349446165038260773590943891881742287199536516756275434207185714367520354075886057716018523752714055116518775280246454940552391379866388203162096460871406215713161952554550258267610488429602332271466096180937960685287329946432500691430202074651256440825454222495669706471180617131033041673106967198761698469934506317401711301728264827768386121372580012577389289179282835827186420432272164157659987316206380249589519587184755009234345228553410948315113769293270648842471833168105138926396520829910555033830367680318616197840819079373982296837330174316311920058667152829627577362510846909594798350090114049237988471442997768065667357851795598322511048576881778083967408676338055574326637308423886533342113372979625232196925581794019690722390800932327752078374527553694848524290633091335073548253900626578507551247294807501418958612500628276656437605358968423806431480422235914096149261043887183372315145181722737082611901367739349147534875365126549582376702782088339287903725461768473112117432795015749096591361213816169221445460949946940060646199968561932558212805235006142310085234966215281031672896316948887194479783353817769378202914094305162642807585350953661273476458802367539457423814437588387401172151965005779150918249568624619352073492417306819627329575999930331977268365036196653292946693526265574186168995853961107256673310432748838902499209272866228961426462539251035922984102363139416222402981602202702017754603153959026132239273739053366022470283915284138090294759954806743828491035856633284213705777580694275874599140555822128203034375771413999681179827444669159540279821076130861456514794683935103717878461282491683225668267056955924974236833475704677757211887449754794018004057129134372177879120090536023485574100212931123642588553320282780969620046015213892035432110441725372627142775700501920313993254621761223362351896173542668835690549436127245482133037860101340121166413408403715511004689088241111436628909696955300660035517300203828693264014002470916642997446445581271191947228412846434155704407173277626898710827168820514298261552877518722985986468057968419012936606105690504361626980986323929146905233447402626925543844139902065762019409946540457567118112373113251217792832802183001583085036962363447188850055537578049025773869569818193008664644493564102853819954320471278101799899079448740174979885325131277093715691123943696195732066619711983625443742846720916023433906238684022796584604823262491956684478960307163217086624149011022658360639983665220335595909921780531470062549149890504694130687550196733869612319338304605226462103224051620570600242082291003614753996728515211401633194644483467454464016937700820127099360620958349498744609858739069989760325751762245518548424119756769481720028982203512914843142536483602585028741332523282997747525023741579731224661432082123538766444939907903091926029497443546481869686252231467926207824849386235173991975425147002430113513654262166950942829786086906348004924016287320960318186388574382653861641517992058052809054335196609315458588544726367202921570749698876947160029818374888052988089767028445541056085272214911477965448743890802039793666372137272395651594461500220043245294564417819224753429994684434223501969593936328174907490194484842508525213873565476155291673535884486301335727146331966161657189459962198252451717944495946118336893768096553551853194649371574432143063458551437471857722648681834575274561959416910434600347927688397276025181999142474023816053618748107186318314566685926327695548520979501999201402099402424521774529504548421760341954342829693876991896277273272274813408638261044686533281177984581701152383966384695175624820606460350981987509276316801866817034916560189816883806445929978902302700788717641879811544913173159397906290043568999765029418758332180716313165463817418961247096978245146476835110919978672515956178541528602811145393412406075526567476067586553656316320917179599123118033715534561480475921265035345352874882092414217712102094245828346049591662392229446655134622090402290412030335783362436506698947784007809879907525082247271743095223702899053147010872636195340418381692860484908185313493926947902064623696531994867510321847336366832856228076756019611581843277003954126162563403601677898639171158175116860147062350898466621694317737182232146979268861602367742678760895729171592413741413178299035683504045946877854379032335935883130077021294496620827531123902173914363653431255001662532948055087221565836606668781952770839739943127817254209648408279747629637307994442462318249737474899897982430707784254976840973748179768252610890968304212737077391138266343087979210528374662836007844103922448708752822207091970765762536047000213025971178542646780503902378057084922059293402622993828703329611335196968403631436521804191078760299347799597584670208718149004163861348817626008751888848802144783805742107661934314604881614078188282989433800647926105100061474462337389294432306949420965660982287245127128674774980457987592698174839765519911112622507976733380535605572149287825718905606921503002564993634257340156619572106756527763526421035795873164003422157086697709933622808751012731013704835985165524041581964911953286176279379764635570398496194642525655491416884676378273621586605250867954778391033261329005814313546340633855001993951426644553390388229221089853947156014265857850836766323675009375220770456287341190516310977220609989037251215457025058374554346392830411465389913377035692135110208622570185729705708744929792260950074523337908898185733992084603697415055188533587099572147075377156413335310545533637244619238870346895879413926879131719355536984156960776265914512874807025830464208644403667894608192132159170904928424532262160717363719552449913026393546407139059247370945373386265498878721469589533446579921705059121894344552152656210080816622908066730079907582664473435283385932920873134661179177561609125691528720970088055167614584176430593772121854983236433477229234192162144734169197554461197424640297442643867755519773137790893187776139374244803603059855911826550734245563977016781287038740493651774054134616689322638021346263153504253329305302188717548150872672219899389426059093653530838034070389794143989169972600303894830850112220278275287887588152827348933490264899762362096018148429445938409751374746211896798196315229085372981531989364941540244009719291008519315079478140070304639599223144056020142533936286329863894935916067660245205933365659440561909262135827172145991851365821550930818043830614547089446654386663040499728719102856422227657461530674861719187916780965468071366679528189258682526796821319089655360566166177123901651547617459842470071953005512090556564520407446917775228451660255606606866316115536931636818305192901840172590853346832137156505291645442602181882857590049456601789901516788755875337306473573810563048692417621273474819378888640173588751369704318106782019214167238872714611170046263019807317931575334918915790289354776759521599660015682533050205644377075237050718518576247444580524944188265355385196883959017006679693112562629707920787080071217427892234753777670856016745701976786395888534791609520714481550873591121291862282351083285313298043021332082724768116793438704373051323963759103962634091105890133347406194395979759330044618373700878332210910767916275388767064735287822872517299974198334744162897277884389777154605639825604692693530211359580970269550410086565583011344443237492460861453339284491974756643715096470912735238722481397367549673864652109580968690442331651326207517207798440764255437285463273165600298613982555454760473462701584195649162882097649897192630900525904824428834322788138632158487207962973127455174205812340235976019657585707278346286535677648614291775755447516784434587578572183324070685100384112836014724914878612281531506985035294845547239156972344297005110977647341616683388875169610405352601522730297234956651424712540936540227173567627793502463750505367894531868446689080128150912946946299370874921290165816296193451485900151991129239406881039420182911652140544764102379254344126114160679033679447356384883844499034457740081893972314742150076018440181537139064115178435971007612346647779563312667539774644717441994588755458787386523449715578848906552302663255890272554270208747107707958323564088073451107820465078802052455561110580527794167767511384748479939165190241845166088985088223623292212009608266053286039324103698760059702702039568071867315589882134660660059802430031856015212202724113197309723364222839999496063668629247089697043786171341464670704337555756408624237745423411357077555646230060240158240774560579049719977642652722799990990387004523922078461756392149277197634695422798574504994853461004368227932704921004465768019515426427197534215385388306266061757075922312175618309585380042234404930109274877332316528260972833333756900416462708330075122008800604066006319993470714124629338583609540441253112575887818504491940955268999207409520781127391483274689244092618723479659964612574066305902261350730676456046702898565717529015701445094663646694341561572119437995848919946305170932732415403615122721507526482670273005874870961920873052302597086829069000821056091178412464313346807379107746556877411695024068044052101853031070709010957707421146313864167435297797136925816266453402921528007241220696398168922607818838766827924361036207993929161183019969515542598176731827241212527860549226135134238866062425273719620489207309633792069826644627922078810087175090804948414857977904242001515936165901685486568039694936825127416077816765025513699558397300227087037571634883038200285409923718722131049867700846257705327068640717264012029941677560763329591380027441499761022232300599907595196297660149137478189942047420133726039974300728989180564038901579770735703897600899995208556829401247298428870472489753080045453969965771082043299281109164080533298759678126766279136415654063665379930416268302505796875820241849932951722623231434538321180748666345209500361702814530529186130187555404412909113961260253107037468798675744704655943378611422904333065997563713096577609639657617198789891887700960325927759668021957323276168089750129596863207837496471248911275534809852209302465309155224007859848995050435641202801418107009154838846959767810086833856563760349615036784820620747050709304266369508922945483490067536099137956196162929320190498209860036602441162266808878943376709507806568562731478737989313230360437713785092500184903262066510160051454206549557452884792578222199009925154996393626199510517645007284343005959428860037607628237269743701269282397874810786359492905843104375767451718109066280220909099194122007086414396005089922092367179991133024581421441563618008409517654965038779352306882121950743652791818728418593107459926487074334364391231008094419472667780902193221215436010424196451001196350459412724082445910728575060751820518326998188051238802295152821082148815258303832052863408391273791677155490496781138650172141421712343018704842122233418128281593426893182137884369984447095587700756479464664106737280679662446006765728668548954786033582596329193756573239537443459357733662244040383805463542415456101217758041016070314982735818334552894507472807675276583739283110874337545909041147784231246349061197240647421985423658322811423667341372180045179560885224422651903411352608170990383323683199339214336270658356672292951097409390258723560182220461654207063635192335537765080559452867825332012144035399769191357739920399039398940225552813137643401892334289683037974871616519015680615667643437101823677289164929415530593067214988767808823920900909355309557034278668556755545029104388077331500503391333819987724538340314510302156487574194111718973340768921150698811457797568546203390793063206506995981280911772885606314047698578811451097072928549784772188465297196927175236278975375433240305625499613144074291101722100383180002915814594591540170826386926883904417830706535278221786802173842784426072985364274729586478172776431737466599143221347742193841152865306292648824701306439223069710891901870418206047200100470388124355290024717307618778607401810811507777483105693495151259814142408891340427240846017525825703375560777782767146497841366094891077334969076136711970454564836121411732243274546305450998233349746973721568728246116400659252467554208189653190382128824612387201351536623280146078904951750742843411855522181941813117195350581402335275028094136927530539222555768913054302433552297903186256959325339867340441219345710450131173492181193244807909171746412372779781529056519269994772669122449334402626211037155445847456259305317802217759722058181288101245460205123654223319071060192596171705199433300490720341245428593642066882553437606869184610365002562867853469762964642233510693385452402468828527713523004844569975579712839316356861273996706400376021550287194871717096039576958015578218712106079515193185540927825641439732705031349871233347913935890869120037228571712779335065270791472676531475731819644351545251016654063365672972236450404910756518987545002806711784954170475450575747615538578425798522552728476282042192694398650234520537082218779347141310471806169050965564754897118807616528459675382611007818352981105844827091965757127150237276187149713460124501636033559487214870312730379845170596789529027926396591078417474893456856333209483182435389702344478744304269871424875862366542459033049430173626041809876977779178202178971100706977162780943731191112943025034494523593695093400147598687847055479509035891096385024298507795733847557079595810916828557342334842801680932917370767500237939850555196622177023497856547394345183636124050283752932405003245668419187238263085298739844830115170752407226555951373812197096106437871367599118613632092078438120381365139756544840752328433988359071419928835976969321530496085576390497857064671423550517011257812764610021271035132090746417718760690329971111112409586826395781911675950866128080943381161276954093390710485980074033434107674250278809742055293844627290840712288183809203735697435830695164796076797925921407744352215581398209275902553116543406319027092312830939009811049037494699195672426857372770160107156275228334677056869137404942346398215086874441932694352703604974786971099921849845491923296861147229495523893153345682350711581566769585712382875998240410210642954557073276640595380535613577287531563208347488102352317250888697534541651236697963380911132044695742296646771330214125787103478486788234443118951674972993889176938785586747959780836401277026768047348615579647571005390368612433129731918517344026949622039381425088833280934224090902230605017825308932639361014278957241130753010917636799725716481272619420988266498680467872267640855488932537854986595386912245853282198024933598502969570239859699557723277831220199909257435122077908861513109457620742678888899550792592628876537451537983779037150636395049928244716999432889871060912796286479156668883685570757867154121382791919537432646776489160460234378979395018891402564568249607593846014398857622311852996163597388117901065426538254889995540922360964239426464925143917224921524932247066134678383489008089443454856824727372826285042062892542873395430635110935762464311866603983027856807634539523443604991982060637845930258270902266862845896147093762091751896365586403921463634659739208806801693362946681920447640252957726794760220967550944903661321943678987373345486028638888350292915127649636300299825856795458071366679035895845291565378002664822463527195117808442399835428732079336635485147088283658309091253475851798710937802469584346214375332892513710855124439871453362275767010618943354583069202683580321589513618836437721021316431640412725642451009850176948069345373178332711407928691655862765960541865188652682949542653836465820120159750067276101473570256996291002376743131621112155895136000892877502233736482071802758255036471900327594944081678048167104278948835411900599932359993087793851332410862953870911219800083807846195664185269320909388287150203860559909961250476609559241415258347400644936786864637789027139148840029298429240563863685749474157371028594727418478783700695584486045731973349754333260319737012263080744252568477994589510728721055761915559351045348988945660649207670461101570987099136658749593194978547022394342885007871906181714500345885050863734032314781381542575708204034900958443381158402550683388819592874416559486211973629940383797219009169168509208906277907379487646733946465688100180627065938844775880922219823089040616832599109841264629896769758171554739189242606792198929781063933262575173392759907211559994082874806860907556435893332216950795157443159777417169513535258731257188870890056111657066790259848063629106946407740446251849229428025188362584052771248456202874446228252191500360184674163037008129183767053701730566061113591306996975807019587667560301964736449433135118173186681364791538729498537934725671581037929075947998958609549090567310439472245236177710509614642506022674628394245107038548701236628816335349432071952232073562324755967315388286417221591221269266884067636313119764322631023223264228104292372778197258302864291555988664084939875661277227552768056394064815231183730201577068171953586513846619375823069829932941884237580906112755867790486545303802955924624545464027151592298784826284936768949054947166422174211959384402732567908472134761825652346158632750305150706792007781925912479453453646497101665098554177600838180032807870007477354388106389653502426200578952459114246960661692305735760598631407690631298670449902402496951505272914958846191519783048614073821112432384664761478787433498712886752871179064779776192005258994653591492951046719275922811407380653376826181617092488421402826121645752836431222527578624140507430182035803679863127322601984355730038853308050629459456764753433387458380517810060198822052748971650486895764965091687765696703299758353768152348717293175187703989415225706749177464266641180217574717646061916004969646054042842218324182337779007131395030360674516021775465066907585102169098483647287106856168291722318064575600859645058558449377990806112409979007482614058094523991460943151290798436010346679620242744788844923775304390858502767756574859703080923629592131861271911795691369114025255358502569156659285866992332702554070290427085790773193437818646148174369476691186320562259889974897306669504202886534218631029209652715886868790674462090044932060741926187153747721462681044634547203782837651178342895941663438974432908424506323237789535374477895418905776908543672411430340822913369033359866306472064026556127415685051235805316995099672340044314717147862985810591261326896600281099879196383525615290427179126586070925247629767764118248980736250974013048389539908795864544663992576949925104997360868291654219324508897725761283710904071444603047952638735445046205620069552000614016973137029173555983948952636297059683897719804217369209318454699156584812835941211497859847101076721213741404891416041552337858722798945784692324595783469989988062336572748214036075325813183051376707501123297971798390622476440359449612566073844129290401186663752646228859150997836511923833969538555217281249420048465288438463749926345524173586046433131305429552257787215973091150203632954893884027346391089720444823777066631018620829585534251328904390755959127326831051655917048306073844042962454907941788409891701165356590972672298121622220347085681863280941366781243770142888474627165905348281616530750551607761354767954513877901180162461323661133517370944707223041648661761088063493552801240365987470453040752984110474388562502583058271760884626906213942230509442374258812896361290181293110155421256444431573004705614654736569398620895451938581464630923426122860884725536149860444968492346038870253094566881420253464382704369483882574356491299938149110953741001605067678429763980787299825896973766509987933740973532150168395729660259870620932785310144206485121438729984768508222860303264063095889423421401994712406530418028082563849620459279165186870718286452654526631094649653328212298112322562854938959220221666807064869946354144361425512585019946086523392427425707926721297121414223566402229020903774999860820888273401571198778909469999024745379700178955992667157587834200039134026984015786089218593798979089466697605660408224441610922830881954094644879088569814545605859597457790800178566009523376979030692415947721322665588671207457610094939148057243749221928925310005785928619754398392413566419854816578911454921645355646559129332228233416516592274432439185517963857827604655963000526053471130396496670240012742808218719325223193322273655140203211806559423997145011283521302176874873273220862165493092390734734173576821359520166653591997268271508121524422363018695921512257490581519282930997509778996925114366911194036282414323590001271552704691781928013165365227728737800313860745053104434868884425285553245807740625033897259523072732475077315744152861485584775115889920627651047192430573107084310046352807916788737196357078116681582223474057762746373375386775240369075745111629900811549012019812583876383729607016200716755855044104465139705768437005925416016190510294958810994385913245698104123680769900168501108162406934122121184354014184481015247587643626160343497179940034335325593741869759406760980598503434369867433390995485060302566633358073718076228210329102570884723491532330292137680398145578902230652231188539742426884729515161022516434418654555592250145118181835943160162587293024932473323614378748777269440278338070266918551970976985852873624962041213798962567061247659997823229009418583566116342610932785207578865177852017874031509535018517763259780662072044081234391992740443853081374497347856853206092227579103130191763832028697863106654212280297934411921000795952112882882347093974158592195832317462381064892250886288018613151804352941705960467801746823239969323180114064993710458508169037326079928040928312494621556523768033510006871031911043328394355478283970722019570032663820249715155906722877160986791824590759931909447606278257529293453029039746516840513847776057949721533619590408145290777444236049801668909862570664662885797139093093693097727040912290155869276795276025180259202599559542009459079116550793794460155959661146265582841313216948072094892537567708601967691328789633504369696067985687723392172368383727025989102330751250981864786420772828001691862904474229244301229926361456179928607511431897732822710052024060686871485200444701805776597086700815448605073081937335618999276198270303180205034256139091142137342335404335786793119531848877122071312839716142207758607906894041337536730675562020919695648536610843874551825565842890574816496131572923431962354799819747762066804281972041160069128792820742694112380452659514041163514090623593433184305479331514268469147065967829357406050024749426170457598130158214567088662146794102855038103986031005534375116947388883093618937808380943420210992922752183326900045453960517276071993241062825262167008382537327648838351039947282399436870727780374660569692231139108256700436674728799737738417188560540590151118480821011616483637095579585645435260814712719344060555596601262756438101638122031712382691549148003846437195061086241557233533348190473808418927510805620677947760672476153741610088724804545784010830303996484745455657034034657233018438204884103922594517690980206127978613321912374891650991943218331747855574386921367496144478659251164580103254870791632409934677308960030377635722943222078009267554048225354839668646727755236623719409125534449983009627096300586021152601812359192568167886754037578792460279682261145180617578047347471788239767291322123086820887562670689059714272682491892582535941480691776744618008045182017061405404071263756096529896340075335323991891830057089244445152493145554097343470977566357413129453005844858996152350711854334721554976729893216202915045731462600677626349707615290295374285944872702495366410549335304967243566584947895057482716072356369720253466460076008864962519567323365544900859895708468426032485770260728490163809914881372249726408438207466361296578429151362953875174620580829980556925940126475116351214208036208464849148537118730061161211108616777413065902343531602379553590159267465200589853164442325584541984240207118253764159492584135211999368036512370900269113914960433397228324319142540676875947148270476486604109316942931922246401627520298590401196304095490732694811845500488190406237257774906551254460571197415474158461675298231509219800503285259215158618081561983191690745502201956989174709501909779114102950017502168372958506370104682058677047327394304635436847335434610608165654118822544748423602619780132374646219299629412197230457685060809442936521623453077109108813591024713541370445995393746970026602122303729216623684829880081901024096237503946476018590780086001130883068955495037225947566674061150438943947623195642800071510033943709272847567747718744182307986476681149461428209585901226303530814821890922160208861505344364881178908956072944718085577516323787896340

/-- Packed search outcomes, minimizing side, for every position below 19683. -/
def tblMin : Nat := 6794413631968551261789784441070061660277746661713498936740938894079594954404634836498350156821052187312641327055026076032922812292445518850722570088504544298208916923872721422120042117735844327973347564423772959647397378508637015919096189883334102626952393338297651661591600209268201544956688066477116608899017454958752004047528429967702598578635071869919829338704847215197035011653831475585173556062105595312127283690101132369027874702101913836351695446621164850559323287317248473630323387589040350037067894103600398627475243810973244622928859251614582695116225434837261383134887448327427595651207177048310374660803870311176971087529652356268118152635222334875204411948415208426667415153100156792239530338805935272969389508424941304861216908578058034632057415769436608962560435475986472574130050668450277191119844031223286231575907937223383374399388563395673803950288728370124244972201823549546429988717220937266265760499359326765963056286033786272891796008723525133045451423957351620078624602951871419578644061689595622334618914422134941636273382703886362086622768215699209445550884287984801228485732096769559866899312523684860947718772545430827582151380239739176123522678259642027198343852083091828548141980300456561505519808185154323194553580332550281557219386522738580713709515151645194617024179120060770424738800589858327176203849575277143568431496182007757489902562378889066361448992696172108833254057268235639841808669974610835224035707257197866885556027532942472717697190161689941133393174140652558732471339776600650893685288027609911747378512028989123077101359375470328451508960972991856826079923830481321661528191761885853546375445834694132982380604875778600937770703698471185274639572484743528224138473324432797450156183426803446381987155099694721405794346567542819591176167075926542518271105063766808195092580733391289671871106866181999836253071192385468868499733027102086047167387091806083547173177649172463020681334885098594606164475654696409677871322730251048276540595238418975990657540742353975935116567467361432772267028832989303311035039708512109144289462256031459922481125195597251546890438968242657986049054731970976081222562859161567880318961642605618857211198446866339404341798699474748444174363700882031504574280549158451867046238345194981350782096348855219201666353336166992606127707943951254455682287905082994921950029846811281244922327161155455720041062146924651992710455063139912336834519507299953253730553301619319506273466837156382878547898339129666618069210409554862669093621688451748767207594053713268646600722919547894087113357834532469597563584941800468200293029950831831183273337964600540098594563217578977720441487694877209719026439475739130015001505534875697898786283062497176897567337643199201209448912648539379574864998150410617443931784216310642701283997436934307162652282173463691385918476129298692040450043357641408219194725097986688939351731534365893654538181407653994860008118460514341881241110664695870871817971563325194712395959397845556329242824149511146088859286341471317798410673732401327315483152507440025127678734015276016554443154776889509707969387968235647634674065916540111388327030514977378291846734438695192668086237150842924802818517680687749276991554058232011495091589854882455405804734576809166234377662706352608917703305011971454208748468163016538352540241746032745206887039250737955097273499722231425170376139205423335487388701459971577588825690581548198725137533029706285951845920236094793702200433793808296998811805396062071941129485919150302129548341199248813539023935629939858074173635247799853364415651310452733239044429322161413039926421095531572034394840461142338759214134637347965280695497641841894783685917392127288954662259270901998327121206739647365290630570530092649818965916719959981676100157867376546811180979347231743132011650764479408686087766198864340277637433576552297500447757336295755959236289373251477685128951648238256310283051446507924587065007630727424250062480265984467973845273738347793780810955482768574393244771952277034492261780513623201009088348813513020200094142661563236475364139119144400275127969817612493057847321287323222589250411157790130798132795651972839742516036694343338197953739376124281554225812898566233852880866320045219212181379319377971639731642685161483778501783002358656371532705760380860592177079686790495531683032632964063297407733329870319817913437593251383548103184563872639562162587744007674106437749987797515515554303917648055410775792311621749111753471142833627383711796370174738851837861560739606002535607902511961485192643105416456163271760995277253901506163046261169775088513049864703147424619416097322584732610890565749314399092135932965397170698487291529848199838621678287077842310950615120884795206956718862287040594196875740536452371411669911360791632949734502980457783183226937465670066126782900411066340199166724510287218724319167949188878960254108614484061323647183720785111162155507858248341089333110898744289311828719811319595566789108129958203755879821595617321988361980728666958719772652412221453645116548622573109383265925332735301965047091102280926704650476131578703953207349453595247666093592470589486409704706018878611314067883869482901275445391892262081097549289552025948259448669342513280990522929518161347932919032149780859816343132115985146586724238649225636153041675211881185549722062774321342131014807420238487414400864439993351420732400136453072457002945176726339144707401372542485845761447401712876784742575244892530066519973339448241895154569934568350218312761827434381516704636104821968380412764473384296220152661596892199584312829484386825738724936949592962456445731767404732160303227101462446924183490680839659604298072703781790517643535086224075324068276250353355191216695075980003120656797418853260404685903034789578581475621112776350209158123949407225887793424452656639873947983734510996028233382411768860005493343767231770807930827582132733860803483302242341294361153378197773223077127705105500542709291986172045104471486808986044185954824374306560038210664405125610773565543381590595740586126067057555453535162771393354255665221545848984416143169837090405292284771200336240040352352699979420127638232767676894027629738173845270325273031391338599831318283578795042171536659275059756187055640633141444057743957146042265067446234320627476503918003726934819891396547010570390658595983197904385814763453122190008328862949211771081483331969838535403001665995618808055106227513074480211533039906915569419001912699694750622505300320251000150503358294169866621947878428087034108473365345269423447576962439454954456903705243925328156906945302656430184912927723474727471687688201538838014351850811530273291177187359680500436783477322458598110518664319083745063437302656222854603085456918258468019375082082661846864256569950817553490957803088309514876268493667366223417346575367823607739984239744180046730193637491621388971473031343789793232121076244573687125835399733981355887505908060211262378585800269593932384998579790916146381146711417516464651421066648611765730833526360024299425071822274712667078872584527963123389094541028483207044136867906976109699959466519839713683204826064038012854412013066794255394565242049952471248903501671446468312300986817625639638146769213322795042817526472836965135194321244033305712624917039509892950856642675900551959138755749508712661486636433042401794067637932901931485955581348275573637126670427309222733490421491401009869532668899476241599568975309150306113877968598933039846430017333643370567734321606402853213854226580834082959782394534366935385902877736005096573868070196486467797205179206249298631300176920594693192660167559001832189120732955313051705408064480944556097752317027454449345898189970648455226368120255940346632423330263360312887591625732184396965573089201120480118849314877991102107825637002183500837148042582340441679302120092821744068680671584939242632036324666449458978511362837728502776285463776563149460783046758921054110499334318959096449619566812754091583531437334947110205920380995352376573082096374959613779070166299257445083096255038013902686853550467763949420305962399788162260355723699119787626825147040903688472705976843916423753937023497406447135908881967591959835655963357440548141284733753072895916010084009711339235964981234895680187626121634964742111469086601130369949499339481986069590040738441486938101213116553012790694382309836278587827282841638356407382622346900387140795675543431976920599114908842097724922216988066342748179198839024826589610688971597606556177620953985561750761818151394378518172451626815390089185186857891329411937755118249988041363054643665933153712799046748378187968920335331611641505650299672152703709196451516703326762778153240440103602852243340815924513261465312997224395936750608271654432954512414888076805956054275144880996432554359693053685365366629403371048699196019754926840770296372724430943727331893925926087922572449466319612085647891690224898035935324541562633363438650891150540838343261676934517968832512287105615631802974456781577995700391059696584726436332546799098939536542518945688199841413842259052456163140269321567909042865104842722715920582906505969573612233440805257760186524555033969134843190908039727832112039912545094388502386350095343090572920487985067910346350946346179939243258872027759625326701626760929477136085273889325665049788066900392848699609727216342950939252631362017885503580224661118197397342439140202765573356053453443446352045090790419150970815835148661546550719158653824892504349500019342895261568670493510605103835981912188684959406326386522851996701625654963250424986494124806987325569149508825971304821997458447400958135616978964871963477632080680664300919659672922393742143317871342718154170771932530074140493145677489504801711977208552744040898705505494035482828583829971828283441006386119115344686631603056693975158263509731399766397754262209118986437898336683647302541056792516649437940687975363307638604888296202955537501451344790333789107021838412373971805947511244636552016955993570667901449053230874361514513535383480880226318498431793574430968665293172229268845119443213473717874687593259589094233792992715024094431084558545050576774059388935305727324921753908211276772508851754215415647378797140758829214093723781472502719569954857224061547166353087046726153939905408022886106389367044805918274881823597433238483868150425850166253849702348472879316052917628356280326152062723028424252624747394140070055021325279092807733975578910909513354642889984647107621992210985456699942745875073303266548169470489914822119864150507769399928024347807685196478004326988256928638883185727079603769877933593207786058505374899754449329119765469164861883590828304629479682018468890751893394110355156169805321571086893696414893581938692511157084397041999841728712211493409308156585870377605121551523316712958826257526488083273453663452184551967294067970955425789565123481660727303359444001373517492257068487469194183161369532235260685608636649640452234405509456635171055193796885735267136803239377499392605860468878533183871389456309755351328636603738340394239311384381639055135231618503237648419205995273618174597199725711767105551522961263836610423474294066127026572360023897190068594989575805333314784700591970011670523547532758596132917371598429895097856275627717169125674359067172351746447473919386753675313626693801206231964831023237233318045732818881175885943645409665995549076125738807746954028275194466222683964423858703073711929134537143242635188094286405857682612961222309959270566267540688895783451857982264435884809677128255571075617399999709233204128271929146676955671088263711940046107142379387819746424970889080655085534322998765596566373684009185455768278459679404844790773839023341803414876099175467383066001337931108920912225835313881413152992576184949930810860455467735486599528574486237089926451615759506235886177155106351887084685596062149713317636022420421257996071272706975253566384684589432292746341892842531517634338684373616821534037943105933251292697410972904530339681393269861202256127556333730151767219893074730466981661503152473411258298834564008015216546776175274957271029149705562333486876327352189131487902739022043579435368921474809811411778650936481480755270622236023280911602916669990421651664609477306662328277667651020892816091637088417546303061021229493446039460122187612162471850802412100331929674630009162519722962786210988374566560400137509771246755062721574604632128015145948935129551180598472388345830643502879395747692828844022663520559018241951796000096278830620761696598925767223731742974786309160822320399695916834454008667762378739020384948355792516579557288501327374029398075478531380035537953666108689090292352728924617034213020295530094953115530381281744176892073383799669260066777112779065734248846979645666090228403553749520662253420170272612013793646611611362139301158044329163906300970115313076155263468406584320292200630425344169042766978990533944066266736917002118510881117511207198856169662987451454605282778767757272914569949916441495429327829016377623425156646971372363635047026836881153037057625125072996344855621955835153613369497041494818630759653312652549256844292088908385305373596601189456441328284757666354104148401418808171670552775016721983076609221064665301830619386045089933529703883488810144782486556262833024126293440203667920092646813303549426076535107084721941220050951267673034447074788604925805990484613988938090300960312092749416037966746393979050016819292434403225840658343303852744373146521135500643258730461572157830483912905861551507076007259566893379206808769546992407600611078057359133845317106778461628739989913148967950076943378578275177971440376338154732221521608544526234665735385576616853692164330184001873812396452943268874507306561516980491721722036463669833792255393076937931768199914696737592318448231920240864149731872985295470086335317605028601977163521143482963890158779015351981446557458977085335977565887947133759421374294051789947208937865736870521374137344358693499372807448549468503059578965870255700915918571433463020986600287969006447708797608560456748499994174299650647952706144556792974496478908808627327340313618872617901962668699710620909763786171014695577817778114723093596521333059564202524943471346294371964580305807927556254168156505848373733135136278531689990883936479245100758439030733702191471532792917539932561758216493052783484809538932903840849435780350939710033596324086315120105205012577512606496277191867028594583107222436943083682887422328204053592400626671815560834948068581520745297134591969692874354575405247087599033184376454375739129894088890769397638201565161082913987255988672039544486951591069410756766912408369921914849579301821757902095490971541810115026105909690789056303526109749942391125565469550501592277290165428670155289890019633759244446710563102641448898647717742516967761475738776614951336313441420681135869277256301906060920145103251166886862704402282110265608691393472905812230403697817549016813601436541484212628742304780105027728337331447569693968211783784564840044451402972998663029084689164010830889552822351581237309792047959035071746889038704956641689591076988469334405885197201817638577222797790706891902001801378574944731632219010398401484456071342852297185221271633087005105061817441972570551668510016570682499027957689687021459108493848384337838502102483360937058735958392933931132518082298351530296185744563311866733015962579356424507062384255523690021816799358213913766595760461612552862819012167014942195680384549663342933489737492739560968448206788699194829686525489472827110499483774420796382046189047959829005177092069122079601938610888914266657600490006491241656582476436091863227049818425304260495383623729055288943588932550153485773630268176770764096802546231708090555251073536743293376057925739702615452483656057393011121709316876657206539619131215594962083391657648913442645801165795293141810032664216069404524826742570281281738418745496581424122705094667254847214575652782926749263653124868092902035494802060665638040191803952906880128440238292655604379593104273411429893050017789135000996313596420024312619577827265198243873969198125742224024005325882965799789808982991718990069557466573884368045846989751299091868521020746979153810900988421295943056192275009548280613414163979417074815587067519520674436272979057415631997699645067525629637518338165488604833632600681137308912228121257054906307777463036478389620267605040616016841643486379970171571228025492673121963614210339799018889703588898556863034612448495823760401743629852483735467489242217122883320222282560323269384356973028723672615626802571120761106659336113293010194901441393406403619198382429369278903300408672016647503041723703615662511276946344997679296635351906361887059860105325198518367629676429824131043413667840624640273671300308651494751625696582621534271574298769687559125452199680034506529815075862873417300723448519119927534018617535277647015569325895895571940627889800975253009005462512160505657618656257883975131369051122208308035346596301739759083672175240847773170663414450329868440367139466956173257678980765236831219512703338513706371356764909096501219623936111667529837565981491239169644107278004575395399985170174569957702960618152002697161863833380944115102084553654029726526333538818430979239441201218104790664611579139607267467884614389983574572382798708605295005093434137412483585660100658847922983072638611315754224050295935025828123156991147014596174451067695438912398793610682351235727229540534030412431957340573056097960789402191591314301027249186821392159064969841460095224689957038626108828059502119818684657548406867142256154472298676384154109307377764734675988636692105523059434254805367258301821082897171636753231613783445529351925182679720598665943320882319079426560979183461238280215571404232611385161119907536325412457833589921066983494072497011304902721163093747717391797245212678510121756306034418516595894630136170278352988657164281393852585008264300143668807004324028007105306508840905799611291010708336130690082553210769025110775629900563549432836337861371279763026314862936861654243772731041977633323994472525216979425957934041670221488327868078616647911485143567277084800766555491848706994270909559484176671391921912849832521112043434142790657891695835701775182579840033623751772118905355746755143988530156041597958295082377717009331722527799931406553437812866576876315331745482322571847764871511829233817083580039630556522704658225711087561174088055238328330997181250514089893829370637018341532066368928757370221869648300229548483874948703348420486338462572851821230751384623806833256838687225247868627036718969757089252359143138514700782749282209871085582967485644259395085974259686940440644285394710571457416236185052959841474104468548491961304721587531974533564871776490758892752248793212171417860965578328211097954890842280546225234465127883972595820950045361790318853956136450159287777243886716629511827746342860468556993538895682201737925830718290882766008666311278529946463282067800760501086007397223344485707150084983969614253608147854160844932936876767401398911996718952677171848178201267452869025407459332646638240685804737151093112743820731374794812502764160518048618005094179529479858550350629608900886239511255321835810682897833030871085474297789878058051652785171669350106436785819925753452446016567785115978292838638448033961891526448269777540348146209662595191333457023904018993729913774044908493869359217663015216004163779136046359800499615009053251652965836487275306009572785396390143788379105209618556533734724579741310025981818385062213600960416885543801040599797299887276902310192732594401244617715900732999879143340590761049422259186201461543537432523586379534504372791790041877294201768021993371783533432639791739452197128121751478588519468763611060566110450101605552387479138960467319102507421269176781422344256059486557605789564568880585436404095116407002357235893018371936178353087509303543570702810015695248937001189477853083923508238039026689786367415624071636101381110680064480946107871676980853251614904664654897554618947493414218862414464399297957061508793264512012914404975218872154036573261729573181150211293443000567998079357897973837995018706837085877901437003241871868632229231810099734704700977364006035770899407316402391695192017503841821459538688109386694979680708049483835027035600868947562102382573391142807415635519021835513013591192344801439066243631176703611374492626578592750357348732138016505487729110934379513789365382099602171965147591777279996963027676123817399337386303460816316451167436776795749728055362076977257121305138211033052220834875384403038090675697690948756475695684145390500283877493350342931757121508342239290828081953647895711915773444355276747083219453202040844681538484078875064859570974129257904581958511589145401114205899079119077407866149040299871271729623636814312217617891001379558446559311116919137968266225057480744113930958621791994517480555782606349074082679841181798222984374049160887971808146600944208499786281944967041914374686181569992746191166775767768846697703764786452840998079746123407123311550399203711908327701228292387442490212191442983954528818949083397415120473014741261092966729169984436479431620831110255282332517257780495503457779681836019346426854114651378531201316609883537454555489425903745664934288266921795307076223262352253750957079243946917904446001146015422752676999960696920227431143021251240252023863865467978530611638192801065092319317858077605118609571116759783663503967791291101179911595794225916748891081347783130179771818864729788906053805870028843496087923836225354933652363522861743178147931968001228891228180315044022090038402032479076743091363603397844234123670767582068674130324049988744514140709248012955652040406777827729599231650439317701870391250809362020522946909205964905083985398335818184949700857622638843388332060096136609512877262083891418407860243362545435949492232723799092500578249853532406714373266538783934253355992015616336047025037479217955352854553077377799632332248966547747599813953716920946403642099006925533283923142952828512903072538434476627907443350407063545074186687911575157966478125898891100181680544430449473673583897989121814562417333034661249799943171397863138504352366271354465265877494631808672018566268542615007722954712777470767445139681228977723256420492332559195974523155853443445532307852449604334949014313846960627463346553800165018947636389396986172794278911602022267361848744906302899632386794898534450235470208453173646302700884047545920087383743747531828705235442235402461439822939308033183521260190955740110437650497774677609843877621563571336071604837442297859891970105956901488147715045176594172581882619715276920033461885854117427225436938815333480752265919130000795047246046049523058505839044988558221700559940720284797120242846796277097070230802987552568753515219106269937120189847194166202369933451093894272112407737669724614847621540212030536404439329879870310858591561016253389098220153183729390932040409387171449787285686142549263038800650803585339563329532263471898841087705222935356300749786360188371207972054342581736759687578156287704238841801077097946628468519288596305723568159016011586115136802676150036107284231808065424500569403444770480315496028518459220770776195707049381687941818177964552864412792997722969656025617540804507072003381999974810038535342874441205593817969016110959192192211461259115458578852183058499803324409100437757232677132691807421765110945553518398644587806181183548002910304766940891494981253208849728431946241798638718045482834713016210077065235473519504427304973955233758890890750423085473764267220315796223924310487157707457334133274588443411087177521830523466448470989864126180765710651123715181878689500618021478415607804842920498389173330131217780825193930371418727784320772311900576824806387967056024775760719421380549019536957251955495953435127956463863982427950622988723832891910671920279660800273304812866148824192466575152385443354556398322411988311796749416749365573484253894867257251901647830216512298087479175220541208398329943072192485616773011428336645081910242369539515843919078260084577315750874890001807736803490050670671196536699681212617865602827385401540805489698487430870678556128952109826176138157320967224720266648261324158921434087851774310357767514664137450947048477990861100307569565101816281823894430277645875585061282674212215930744827732554176855663319209575013655767103564490778928158897493993769724249653433804624459072230118100857631488979073575599705552889867605139954738319714559815206241885459818856154779398657130700467622571848707157622481903638064297743043725649883351103156361011656791650199143715034904260664186429432863935587978229618934099913421857373486467057306883805807851020652773462817344866192153750679462943834166367332545235723048204871899755607039073809564906094202853597198348817538644583457273855511197648572826010997705126821933370086584933240810155631811782831874665783831962673665939460643315024911209983221815247368168360705864871031927823820132047793028703650857420726010902210927490137054839946522764755611697840268835371290338834542206247343852431870713397892763374989180555099244004895605784094441906170124800946310798544273952017872592882968109817846994386086684977434512754317258944691979833882951642652000787534111558397713627020816213000070436157808692127945828155434433428174049092316297329021395540653404256448851373809534966633291443187027443775791534989484426514363958400708936713502341176974083130113275782189521699885128931070981841137837786787167711320282116470866649758823449802903615948341735446212814380747499274863493950533059176872205123280662687945843667973231214965265608940438099630393084235981561602857949645187368412325975681563610599384481092374384635621527214487242526122360215560417090454442086160212312844381036596325705897404626423620701470289404112519385557315892383569854668943206971672656443936983127288792995615642721662608783500164413591021254773597070097129517727541499830240663796309850374538038698695447288404342422911325785966368704069283702244861142531219330837650100089743200294648990603634404723912951282079066174518550004900439685120337815208014816638790711059630796072513141192187195554763081574582077917458210459941528844930246510832576132616266343787753215633049411614376601680916986418223439814002418987992223166721677965416127807360954654004397338638761114085620572870356846987214728035398758698763922849304073723374998088731268745728361269720097796849080694817385951680962808107693855723533268982326094549340528900020876676588661819455525958646777359632856678885092740774432850444229994805966077741129337203465011080025258785663411664215060657020045106140340538307145470297687013275382053979022996202103368201579642652595060496520668907391757097348048973346155369311004010107114327397024248771813917266259163102590065130002500712724288008717735647392741357367431556177071061953626409244164501037333215813406672423536218354385981459562261987467005534905679787772420908974662217643968285141878497302616734192133825702033357262626882778697740377537089503368615718944253700438383654818587622060846238191800962971897769090140044386773157411807104740648962669208046274775730967368781383896935456282078998275987013859605271898843283852600105819602164706743868016182752026521045216998147200556587763542115851474277940767799058460332108257048124838424769616268976712278904465412593459557536010218336879544347738961755482335570214137365541538713350194765052439140862522069068689908889871520999061207604090960769595723582809679116778404480649648072994217126452052222999793433351154208114899064259579264911348368475813230716787935516724359558886123506976602430096404396970483990353493965242009441296867391109604727535800731960511526624057730235301531754199096448870731720828484216528050542021363718836653924656322808578262163793190466412310437573112522943108172530203591837308388310857788163315083590096683055736371678270828841760387230691534064415067166264147574522161322254595375944867765377414416613639568393908324503855427915458021583719115405472837902401841594863604246470130762457523632127343481272424568757225606962403024850384353500231895559081686559960720975744813518343447949004489524512950665795818100653636605453471788675092374877665740190054405154890427237200517112410688013150399936070601069988319138199269902455020682354405001311207156113180067217276931993712409298060319614458322277971464459840314611133148007553178532861455499213036140899968786555701523911635538141737452437785326781625998222645787500283947861387125975465050895589511603627310683533598650951820918394756114287770061044077531438902367306134649688130069800030382755172312114953187259162461928235076342563835669060365824108645011472878010760436265219182947559922562543675898997657014353900532152123520366870918844154446142910681252002389352066766642631757159508043259776869593919594736239688770812309228765856739882378569381798590711267837403723678225912334392778412311645241164642416162667322455904246091078065520199026651178342742676609441782536102430311801513252368089177487380659955277300808122033539157661176970537618165184325348861742217931272672406796743318919909213098072160526827874691070059321572259401401928453071767006748783977336931692707164955222035405885005433723789926723546826447476641992769868583942020072804578211098155704400784321424495520419328161269894283140945144880085575050480910043687619609545319792614169977305064235879266151588184254476129666693788187036151496758091960328535107332569623080654259814752747958322582145696975063241831425671539343874866793648374868369396854613196246909805087686362648268240124567890371973152191512469428377425302211448111462766454982149244239894508852396942722925402139252272017504055407450151101178587314922869612922087707078287216734309377167438107162627802633428383814086804400356953907508900031636031819223416830513349966295240729697623746695132786597197290682419614719743376639494947269697027257402991460311178899393914180085996716974796476224551971526564931292819242138231535048133132443635044256238542642051536931595083670203947247567318201536430729337332327463862687777436299342547954187482756361258974450683997391911497394370387626550987907552349249031345982859795202238586852221312334735029318277456043103150044766416889946256467071087944132379150735351772305453278730776207826664923578518841638905573801587486662999005818889218743939226425705387651885963579429162399602637781461907852615336047002110855999387708217361713806540025945270576658186935989085440622988665444641644945519354455071423904795684356776197392774073244044854238570135300704682202416049176493658080569155438824687925101588711045773862668921435485490986421426637919375694306089739269593069579404385112427776138232902858179277657170021202490204902345970235431485345103014557699582515752971443415830444573232852487969936665178738980466722693013255372631489650186633581938600053987601445148829987906038431954106224945434734816836541234337583869999741030441637856133510628555909182785336955666536589810314371504504256488611279952842549823591007340004495370475545687208255714526052256620240701351214581163619075946350587600354560875019597511628651064579639192619216437110167365117264450789458938589438554645536557271355439969640904163337932796930058642292586557541803994734094103872582874757558273698732887583095551429356109713827675186907897579786743053590911250706780450697662957701728853530496871983459487283709230665346926376739996676137203083063147517676912492209913939046717719463687363664856242739266792383696462347967689831551556402339884570237506397944083369171451238424294217052098829900119655081995224445992750880794853149252141000755215088000192994726210867380346074967748288300408127753451255261347478089188295402739321656087415697465737143063806859359794260770234767779859948374522343980597541032350174749258027576032023211615166303188322766566718441919478515255326249427809619350506635622493068106020324251050160697133145206079415437690475081088140550728383549291166593050559839538439841437854914678438085106772157930997203769252759371530388687799652658600683698326914192811076183405916881824579549304386341322644574786036168917971348212172708427962905550449624942536532386756294402491445358424685832513079385651456510335166844684438221527453799738660944985150247250597048903087561474602055173255035932980007915139898360667999503812071229384527389462737460650441581545799865951569289249077158347727930573640551692157707877228690196435784538071316684541067207667715458734440484862293550057365339597406150152095917814965277642526132965698900012780111977286884906318956514411098246199531915257622831977517293773056330165084597195535541554132224575797908212698738557414136266345848131806871710183047151739066186891590693756818485785386594339423998986004978457957109577570231617249665641898580984328856277089342996662677521896078049233188496524302637990431993362061236947477750770549021700465135353962160364837811456529065164909150355278683340054240655079340392317784684393038623247744281972093102878978641535381327637012995222925031898889826176382694657385825597658801952961786562822913481993998986323677858794219846716544725840630558593289804139317200386241209584287777497616553056381344170843819508177421047250161567016718321417647260849795358221230098462240679709498677876265784079119156334225165865589600590002311879848742519689754746892389758521032511501464374363401327213715980319522758306713266928881365617528300879664245330997375671789598082389155275033444455337436869393406580511264800229376415158115548228819572076290280481743937196743710677469032130543651680533437462838860081397949341736593530077631714275475889900292399868427675408820462977832133450979602680709836301315129447430997205018938871856356042762389787015175343138921876996503276339505996536860366459875644387204333402463225576183006073751935926783795272065847219960920942178212697824946515536353554321777382509454093077620779955297560601866523415487403692371733248001896900595361005497894107526578524112874362111433285232889491886407328190338460479084698331126289452986014320781641007001383426531628572232324751519292946075044956312362616780285566994090039145136782260426564050405892560276383358685558229467787127985276527549473735748546700211032138060766561146506250567672493813047937418962908311461629478930845732109525785158453276198911453239176145949104885851077801846641567368537564244376305764157401518406175859718638392055235614040717078015411826870538566080017865218673101179484364419395178064487178465419797756046741830458161259607443489964804419808044945618098632494575727182772255522863956257743981623402989006236451747926199391883976967791630477149800352542901850214287513450707378896018806790592200954761908101020243859308120639675917321706944028027256740309983783464838262519195961376656179993223809646951409176815500861196043418150852343422909065053584636125569434019346482945846389790738763903308111018214092703973100798464975307348240187638891632133886716446924918040017927263684376860711883211359951663760487433997008171560245838322865138443184912307361542270541802124482303602589135529678674120195527301587530992409934181498759687938665434166284065544414810224980960551750986263309614057012889573588131162022322367851423384958266666152318956551947915400513888657095910357942272430579544410094219186383681179868129664683533307442332449811592973407362631464053609836768721261535883562695618620175571372584851710864345148046161657188218840456878388381931729128434769004275363660440547895070900429905082587497613859888952075671184967501541072139994591482138623186551361358306812390085510136532

/-- Table entry at position `n` (six bits per position). -/
def lkT (tbl n : Nat) : Nat := Nat.mod (Nat.shiftRight tbl (Nat.mul 6 n)) 64

/-- One step of the candidate fold read off the tables: if cell `m` is empty,
update `best` with the packed child outcome, else keep `best`. -/
def stepN (tbl : Nat) (isMax : Bool) (n m best : Nat) : Nat :=
  cond (Nat.beq (d3 n m) 0)
    (updN isMax m best
      (Nat.div (lkT tbl (Nat.add n (Nat.mul (cond isMax 2 1) (pow3 m)))) 10))
    best

/-- The candidate fold over all nine cells, read off the tables (unrolled). -/
def foldT (tbl : Nat) (isMax : Bool) (n : Nat) : Nat :=
  stepN tbl isMax n 8 (stepN tbl isMax n 7 (stepN tbl isMax n 6 (stepN tbl isMax n 5
    (stepN tbl isMax n 4 (stepN tbl isMax n 3 (stepN tbl isMax n 2 (stepN tbl isMax n 1
      (stepN tbl isMax n 0 (cond isMax 9 49)))))))))

/-- The defining equations of the search, checked against both tables at one
position. -/
def checkPos (tmax tmin n : Nat) : Bool :=
  cond (winN n 2) (Bool.and (Nat.beq (lkT tmax n) 39) (Nat.beq (lkT tmin n) 39))
  (cond (winN n 1) (Bool.and (Nat.beq (lkT tmax n) 19) (Nat.beq (lkT tmin n) 19))
  (cond (fullN n) (Bool.and (Nat.beq (lkT tmax n) 29) (Nat.beq (lkT tmin n) 29))
  (Bool.and (Nat.beq (lkT tmax n) (foldT tmin true n))
            (Nat.beq (lkT tmin n) (foldT tmax false n)))))

/-- Forcing helper: evaluate a numeral before branching on it. -/
def fN (f : Nat → Bool) : Nat → Bool
  | 0 => f 0
  | k + 1 => f (k + 1)

/-- Sixteen consecutive position checks. -/
def checkBatch (tmax tmin : Nat) (lo : Nat) : Bool :=
  fN (fun l =>
    Bool.and (checkPos tmax tmin l) (Bool.and (checkPos tmax tmin (Nat.add l 1))
    (Bool.and (checkPos tmax tmin (Nat.add l 2)) (Bool.and (checkPos tmax tmin (Nat.add l 3))
    (Bool.and (checkPos tmax tmin (Nat.add l 4)) (Bool.and (checkPos tmax tmin (Nat.add l 5))
    (Bool.and (checkPos tmax tmin (Nat.add l 6)) (Bool.and (checkPos tmax tmin (Nat.add l 7))
    (Bool.and (checkPos tmax tmin (Nat.add l 8)) (Bool.and (checkPos tmax tmin (Nat.add l 9))
    (Bool.and (checkPos tmax tmin (Nat.add l 10)) (Bool.and (checkPos tmax tmin (Nat.add l 11))
    (Bool.and (checkPos tmax tmin (Nat.add l 12)) (Bool.and (checkPos tmax tmin (Nat.add l 13))
    (Bool.and (checkPos tmax tmin (Nat.add l 14)) (checkPos tmax tmin (Nat.add l 15)
    ))))))))))))))))  lo

/-- Divide-and-conquer sweep over `k` batches of sixteen positions starting at
batch index `i`. -/
def sweepB (tmax tmin : Nat) : Nat → Nat → Nat → Bool
  | 0, i, k => Bool.or (Nat.beq k 0) (Bool.and (Nat.beq k 1) (checkBatch tmax tmin (Nat.mul 16 i)))
  | f + 1, i, k =>
    cond (Nat.ble k 1)
      (Bool.or (Nat.beq k 0) (Bool.and (Nat.beq k 1) (checkBatch tmax tmin (Nat.mul 16 i))))
      (Bool.and (sweepB tmax tmin f i (Nat.div k 2))
                (sweepB tmax tmin f (Nat.add i (Nat.div k 2)) (Nat.sub k (Nat.div k 2))))

/-! The full sweep: 30 slices of 41 batches cover positions 0 to 19679,
then the last three positions are checked one by one. -/

set_option maxHeartbeats 0 in
theorem sweepPart0 : sweepB tblMax tblMin 11 0 41 = true := by
  decide

set_option maxHeartbeats 0 in
theorem sweepPart1 : sweepB tblMax tblMin 11 41 41 = true := by
  decide

set_option maxHeartbeats 0 in
theorem sweepPart2 : sweepB tblMax tblMin 11 82 41 = true := by
  decide

set_option maxHeartbeats 0 in
theorem sweepPart3 : sweepB tblMax tblMin 11 123 41 = true := by
  decide

set_option maxHeartbeats 0 in
theorem sweepPart4 : sweepB tblMax tblMin 11 164 41 = true := by
  decide

set_option maxHeartbeats 0 in
theorem sweepPart5 : sweepB tblMax tblMin 11 205 41 = true := by
  decide

set_option maxHeartbeats 0 in
theorem sweepPart6 : sweepB tblMax tblMin 11 246 41 = true := by
  decide

set_option maxHeartbeats 0 in
theorem sweepPart7 : sweepB tblMax tblMin 11 287 41 = true := by
  decide

set_option maxHeartbeats 0 in
theorem sweepPart8 : sweepB tblMax tblMin 11 328 41 = true := by
  decide

set_option maxHeartbeats 0 in
theorem sweepPart9 : sweepB tblMax tblMin 11 369 41 = true := by
  decide

set_option maxHeartbeats 0 in
theorem sweepPart10 : sweepB tblMax tblMin 11 410 41 = true := by
  decide

set_option maxHeartbeats 0 in
theorem sweepPart11 : sweepB tblMax tblMin 11 451 41 = true := by
  decide

set_option maxHeartbeats 0 in
theorem sweepPart12 : sweepB tblMax tblMin 11 492 41 = true := by
  decide

set_option maxHeartbeats 0 in
theorem sweepPart13 : sweepB tblMax tblMin 11 533 41 = true := by
  decide

set_option maxHeartbeats 0 in
theorem sweepPart14 : sweepB tblMax tblMin 11 574 41 = true := by
  decide

set_option maxHeartbeats 0 in
theorem sweepPart15 : sweepB tblMax tblMin 11 615 41 = true := by
  decide

set_option maxHeartbeats 0 in
theorem sweepPart16 : sweepB tblMax tblMin 11 656 41 = true := by
  decide

set_option maxHeartbeats 0 in
theorem sweepPart17 : sweepB tblMax tblMin 11 697 41 = true := by
  decide

set_option maxHeartbeats 0 in
theorem sweepPart18 : sweepB tblMax tblMin 11 738 41 = true := by
  decide

set_option maxHeartbeats 0 in
theorem sweepPart19 : sweepB tblMax tblMin 11 779 41 = true := by
  decide

set_option maxHeartbeats 0 in
theorem sweepPart20 : sweepB tblMax tblMin 11 820 41 = true := by
  decide

set_option maxHeartbeats 0 in
theorem sweepPart21 : sweepB tblMax tblMin 11 861 41 = true := by
  decide

set_option maxHeartbeats 0 in
theorem sweepPart22 : sweepB tblMax tblMin 11 902 41 = true := by
  decide

set_option maxHeartbeats 0 in
theorem sweepPart23 : sweepB tblMax tblMin 11 943 41 = true := by
  decide

set_option maxHeartbeats 0 in
theorem sweepPart24 : sweepB tblMax tblMin 11 984 41 = true := by
  decide

set_option maxHeartbeats 0 in
theorem sweepPart25 : sweepB tblMax tblMin 11 1025 41 = true := by
  decide

set_option maxHeartbeats 0 in
theorem sweepPart26 : sweepB tblMax tblMin 11 1066 41 = true := by
  decide

set_option maxHeartbeats 0 in
theorem sweepPart27 : sweepB tblMax tblMin 11 1107 41 = true := by
  decide

set_option maxHeartbeats 0 in
theorem sweepPart28 : sweepB tblMax tblMin 11 1148 41 = true := by
  decide

set_option maxHeartbeats 0 in
theorem sweepPart29 : sweepB tblMax tblMin 11 1189 41 = true := by
  decide

set_option maxHeartbeats 400000 in
theorem sweepTail0 : checkPos tblMax tblMin 19680 = true := by
  decide

set_option maxHeartbeats 400000 in
theorem sweepTail1 : checkPos tblMax tblMin 19681 = true := by
  decide

set_option maxHeartbeats 400000 in
theorem sweepTail2 : checkPos tblMax tblMin 19682 = true := by
  decide

/-! Basic board lemmas. -/

lemma cellAt_nil (i : Nat) : cellAt [] i = Cell.Empty := by
  cases i <;> rfl

lemma cellAt_cons_zero (c : Cell) (t : Board) : cellAt (c :: t) 0 = c := rfl

lemma cellAt_cons_succ (c : Cell) (t : Board) (i : Nat) :
    cellAt (c :: t) (i + 1) = cellAt t i := rfl

lemma cellAt_set_self : ∀ (b : Board) (m : Nat) (c : Cell), m < b.length →
    cellAt (b.set m c) m = c := by
  intro b
  induction b with
  | nil => intro m c h; simp at h
  | cons x t ih =>
    intro m c h
    cases m with
    | zero => rfl
    | succ m => exact ih m c (by simpa using h)

lemma cellAt_set_ne : ∀ (b : Board) (m i : Nat) (c : Cell), i ≠ m →
    cellAt (b.set m c) i = cellAt b i := by
  intro b
  induction b with
  | nil => intro m i c _; rfl
  | cons x t ih =>
    intro m i c h
    cases m with
    | zero =>
      cases i with
      | zero => exact absurd rfl h
      | succ i => rfl
    | succ m =>
      cases i with
      | zero => rfl
      | succ i => exact ih m i c (fun hh => h (by omega))

lemma set_of_cellAt_empty : ∀ (b : Board) (m : Nat), cellAt b m = Cell.Empty →
    b.set m Cell.Empty = b := by
  intro b
  induction b with
  | nil => intro m _; rfl
  | cons x t ih =>
    intro m h
    cases m with
    | zero => simp [cellAt] at h; simp [h]
    | succ m => simp [List.set, ih m h]

lemma set_oob : ∀ (b : Board) (m : Nat) (c : Cell), b.length ≤ m → b.set m c = b := by
  intro b
  induction b with
  | nil => intro m c _; rfl
  | cons x t ih =>
    intro m c h
    cases m with
    | zero => simp at h
    | succ m => simp [List.set, ih m c (by simpa using h)]

lemma count_set_empty : ∀ (b : Board) (m : Nat) (c : Cell), m < b.length →
    cellAt b m = Cell.Empty → c ≠ Cell.Empty →
    (b.set m c).count Cell.Empty + 1 = b.count Cell.Empty := by
  intro b
  induction b with
  | nil => intro m c h; simp at h
  | cons x t ih =>
    intro m c hm he hc
    cases m with
    | zero =>
      have hx : x = Cell.Empty := he
      subst hx
      simp [List.count_cons, hc]
    | succ m =>
      have := ih m c (by simpa using hm) he hc
      simp [List.count_cons]
      omega

/-! `get_available_moves` lemmas. -/

lemma mem_gam {b : Board} {i : Nat} :
    i ∈ get_available_moves b ↔ i < b.length ∧ cellAt b i = Cell.Empty := by
  simp [get_available_moves, List.mem_filter, List.mem_range]

lemma gam_pairwise (b : Board) : (get_available_moves b).Pairwise (· < ·) :=
  List.Pairwise.filter _ (List.pairwise_lt_range _)

lemma gam_all_empty {b : Board} : ∀ m ∈ get_available_moves b, cellAt b m = Cell.Empty :=
  fun _ hm => (mem_gam.1 hm).2

lemma gam_ne_nil {b : Board} (h : check_draw b = false) : get_available_moves b ≠ [] := by
  have hex : ∃ x ∈ b, x = Cell.Empty := by
    by_contra hall
    push_neg at hall
    have : check_draw b = true := by
      simp [check_draw, List.all_eq_true]
      intro x hx
      exact hall x hx
    simp [this] at h
  obtain ⟨x, hx, rfl⟩ := hex
  obtain ⟨i, hi, hgi⟩ := List.mem_iff_getElem.1 hx
  intro hnil
  have hca : cellAt b i = Cell.Empty := by
    show b.getD i Cell.Empty = Cell.Empty
    rw [List.getD_eq_getElem b _ hi]
    exact hgi
  have : i ∈ get_available_moves b := mem_gam.2 ⟨hi, hca⟩
  simp [hnil] at this

lemma gam_of_draw {b : Board} (h : check_draw b = true) : get_available_moves b = [] := by
  simp [check_draw, List.all_eq_true] at h
  apply List.filter_eq_nil_iff.2
  intro i hi
  have hlt := List.mem_range.1 hi
  have hmem : b.getD i Cell.Empty ∈ b := by
    rw [List.getD_eq_getElem b Cell.Empty hlt]
    exact List.getElem_mem _
  have hne := h (b.getD i Cell.Empty) hmem
  show ¬(cellAt b i == Cell.Empty) = true
  simpa [cellAt] using hne

/-! The 8-line characterisation of `check_win`. -/

lemma check_win_iff (b : Board) (s : Cell) :
    check_win b s = true ↔
      ((cellAt b 0 = s ∧ cellAt b 1 = s ∧ cellAt b 2 = s) ∨
       (cellAt b 3 = s ∧ cellAt b 4 = s ∧ cellAt b 5 = s) ∨
       (cellAt b 6 = s ∧ cellAt b 7 = s ∧ cellAt b 8 = s) ∨
       (cellAt b 0 = s ∧ cellAt b 3 = s ∧ cellAt b 6 = s) ∨
       (cellAt b 1 = s ∧ cellAt b 4 = s ∧ cellAt b 7 = s) ∨
       (cellAt b 2 = s ∧ cellAt b 5 = s ∧ cellAt b 8 = s) ∨
       (cellAt b 0 = s ∧ cellAt b 4 = s ∧ cellAt b 8 = s) ∨
       (cellAt b 2 = s ∧ cellAt b 4 = s ∧ cellAt b 6 = s)) := by
  simp [check_win, win_lines, and_assoc]

lemma win_set_other {b : Board} {m : Nat} {s sym : Cell} (hne : sym ≠ s)
    (h : check_win (b.set m s) sym = true) : check_win b sym = true := by
  by_cases hm : m < b.length
  · rw [check_win_iff] at h ⊢
    have tr : ∀ p, cellAt (b.set m s) p = sym → cellAt b p = sym := by
      intro p hp
      by_cases hpm : p = m
      · subst hpm
        rw [cellAt_set_self b p s hm] at hp
        exact absurd hp.symm hne
      · rwa [cellAt_set_ne b m p s hpm] at hp
    rcases h with ⟨h1, h2, h3⟩ | ⟨h1, h2, h3⟩ | ⟨h1, h2, h3⟩ | ⟨h1, h2, h3⟩ |
      ⟨h1, h2, h3⟩ | ⟨h1, h2, h3⟩ | ⟨h1, h2, h3⟩ | ⟨h1, h2, h3⟩
    · exact Or.inl ⟨tr _ h1, tr _ h2, tr _ h3⟩
    · exact Or.inr (Or.inl ⟨tr _ h1, tr _ h2, tr _ h3⟩)
    · exact Or.inr (Or.inr (Or.inl ⟨tr _ h1, tr _ h2, tr _ h3⟩))
    · exact Or.inr (Or.inr (Or.inr (Or.inl ⟨tr _ h1, tr _ h2, tr _ h3⟩)))
    · exact Or.inr (Or.inr (Or.inr (Or.inr (Or.inl ⟨tr _ h1, tr _ h2, tr _ h3⟩))))
    · exact Or.inr (Or.inr (Or.inr (Or.inr (Or.inr (Or.inl ⟨tr _ h1, tr _ h2, tr _ h3⟩)))))
    · exact Or.inr (Or.inr (Or.inr (Or.inr (Or.inr (Or.inr (Or.inl ⟨tr _ h1, tr _ h2, tr _ h3⟩))))))
    · exact Or.inr (Or.inr (Or.inr (Or.inr (Or.inr (Or.inr (Or.inr ⟨tr _ h1, tr _ h2, tr _ h3⟩))))))
  · rwa [set_oob b m s (by omega)] at h

/-! Frame property of the search. -/

lemma loop_frame (go : Board → Bool → Board × PScore × Option Nat)
    (hgo : ∀ b im, (go b im).1 = b) (isMax : Bool) :
    ∀ (moves : List Nat) (b : Board) (bs : PScore) (bm : Option Nat),
      (∀ m ∈ moves, cellAt b m = Cell.Empty) →
      (minimaxLoop go isMax b moves bs bm).1 = b := by
  intro moves
  induction moves with
  | nil => intro b bs bm _; rfl
  | cons m rest ih =>
    intro b bs bm hv
    have hme : cellAt b m = Cell.Empty := hv m (List.mem_cons_self m rest)
    have hrest : ∀ x ∈ rest, cellAt b x = Cell.Empty :=
      fun x hx => hv x (List.mem_cons_of_mem m hx)
    have hb2 : ((go (b.set m (mark isMax)) (!isMax)).1.set m Cell.Empty) = b := by
      rw [hgo, List.set_set, set_of_cellAt_empty b m hme]
    simp only [minimaxLoop]
    rw [hb2]
    by_cases hc : pbetter isMax (go (b.set m (mark isMax)) (!isMax)).2.1 bs = true
    · simp only [hc, if_true]
      exact ih b _ _ hrest
    · simp only [Bool.not_eq_true] at hc
      simp only [hc, Bool.false_eq_true, if_false]
      exact ih b bs bm hrest

lemma minimaxF_frame : ∀ (fuel : Nat) (b : Board) (isMax : Bool),
    (minimaxF fuel b isMax).1 = b := by
  intro fuel
  induction fuel with
  | zero => intro b isMax; rfl
  | succ fuel ih =>
    intro b isMax
    simp only [minimaxF]
    by_cases h1 : check_win b Cell.MarkB = true
    · simp [h1]
    · by_cases h2 : check_win b Cell.MarkA = true
      · simp [h1, h2]
      · by_cases h3 : check_draw b = true
        · simp [h1, h2, h3]
        · simp only [h1, h2, h3, Bool.false_eq_true, if_false]
          exact loop_frame _ ih isMax _ b _ none gam_all_empty

lemma minimax_frame (b : Board) (isMax : Bool) : (minimax b isMax).1 = b :=
  minimaxF_frame _ b isMax

/-! Claims that need no game-tree evaluation. -/

/-- C2: the board passed to the search is restored cell-for-cell by the time the
call returns, at every fuel (hence at every level of recursion), including the
terminal short-circuit cases, and in particular for `minimax` itself. -/
theorem claim_c2_board_restored :
    (∀ (fuel : Nat) (b : Board) (isMax : Bool), (minimaxF fuel b isMax).1 = b) ∧
    (∀ (b : Board) (isMax : Bool), (minimax b isMax).1 = b) :=
  ⟨minimaxF_frame, minimax_frame⟩

lemma minimax_terminal (b : Board) (isMax : Bool) :
    (check_win b Cell.MarkB = true → minimax b isMax = (b, PScore.fin 1, none)) ∧
    (check_win b Cell.MarkB = false → check_win b Cell.MarkA = true →
      minimax b isMax = (b, PScore.fin (-1), none)) ∧
    (check_win b Cell.MarkB = false → check_win b Cell.MarkA = false →
      check_draw b = true → minimax b isMax = (b, PScore.fin 0, none)) := by
  refine ⟨fun h1 => ?_, fun h1 h2 => ?_, fun h1 h2 h3 => ?_⟩
  · simp [minimax, minimaxF, h1]
  · simp [minimax, minimaxF, h1, h2]
  · simp [minimax, minimaxF, h1, h2, h3]

/-- C4: the terminal checks of `minimax` fire in source order — a MarkB line
first (score `+1`), then a MarkA line (score `-1`), then a full board (score
`0`), each returning no move. -/
theorem claim_c4_terminal_order (b : Board) (isMax : Bool) :
    (check_win b Cell.MarkB = true → minimax b isMax = (b, PScore.fin 1, none)) ∧
    (check_win b Cell.MarkB = false → check_win b Cell.MarkA = true →
      minimax b isMax = (b, PScore.fin (-1), none)) ∧
    (check_win b Cell.MarkB = false → check_win b Cell.MarkA = false →
      check_draw b = true → minimax b isMax = (b, PScore.fin 0, none)) :=
  minimax_terminal b isMax

/-- Witness for C4 at three concrete terminal boards. -/
theorem claim_c4_witness :
    minimax [Cell.MarkB, Cell.MarkB, Cell.MarkB, Cell.MarkA, Cell.MarkA, Cell.Empty,
      Cell.Empty, Cell.Empty, Cell.Empty] true =
      ([Cell.MarkB, Cell.MarkB, Cell.MarkB, Cell.MarkA, Cell.MarkA, Cell.Empty,
        Cell.Empty, Cell.Empty, Cell.Empty], PScore.fin 1, none) ∧
    minimax [Cell.MarkA, Cell.MarkA, Cell.MarkA, Cell.MarkB, Cell.MarkB, Cell.Empty,
      Cell.Empty, Cell.Empty, Cell.Empty] false =
      ([Cell.MarkA, Cell.MarkA, Cell.MarkA, Cell.MarkB, Cell.MarkB, Cell.Empty,
        Cell.Empty, Cell.Empty, Cell.Empty], PScore.fin (-1), none) ∧
    minimax [Cell.MarkA, Cell.MarkB, Cell.MarkA, Cell.MarkA, Cell.MarkB, Cell.MarkB,
      Cell.MarkB, Cell.MarkA, Cell.MarkA] true =
      ([Cell.MarkA, Cell.MarkB, Cell.MarkA, Cell.MarkA, Cell.MarkB, Cell.MarkB,
        Cell.MarkB, Cell.MarkA, Cell.MarkA], PScore.fin 0, none) :=
  ⟨(claim_c4_terminal_order _ _).1 (by decide),
   (claim_c4_terminal_order _ _).2.1 (by decide) (by decide),
   (claim_c4_terminal_order _ _).2.2 (by decide) (by decide) (by decide)⟩

/-- C6 fails on the code: on the fully drawn board the search returns no move,
`get_available_moves` is empty, and the fallback `get_available_moves(board)[0]`
indexes an empty list — an `IndexError`, modelled as `none`, not a graceful
fallback value. -/
theorem claim_c6_counterexample :
    (minimax [Cell.MarkA, Cell.MarkB, Cell.MarkA, Cell.MarkA, Cell.MarkB, Cell.MarkB,
      Cell.MarkB, Cell.MarkA, Cell.MarkA] true).2.2 = none ∧
    get_available_moves [Cell.MarkA, Cell.MarkB, Cell.MarkA, Cell.MarkA, Cell.MarkB,
      Cell.MarkB, Cell.MarkB, Cell.MarkA, Cell.MarkA] = [] ∧
    get_computer_move [Cell.MarkA, Cell.MarkB, Cell.MarkA, Cell.MarkA, Cell.MarkB,
      Cell.MarkB, Cell.MarkB, Cell.MarkA, Cell.MarkA] = none := by
  decide

/-- C6 (amended): when the search returns no move, `get_computer_move` falls
back to the head of `get_available_moves` — a value when moves remain (an
already-won board), and the modelled `IndexError` (`none`) when the board is
full; when the search returns a move it is passed through. -/
theorem claim_c6_fallback (b : Board) :
    ((minimax b true).2.2 = none →
      get_computer_move b = (get_available_moves b).head?) ∧
    (∀ m : Nat, (minimax b true).2.2 = some m → get_computer_move b = some m) := by
  refine ⟨fun h => ?_, fun m h => ?_⟩
  · simp [get_computer_move, h]
  · simp [get_computer_move, h]

/-- Witness for C6 (amended) on a board already won by MarkA. -/
theorem claim_c6_witness :
    get_computer_move [Cell.MarkA, Cell.MarkA, Cell.MarkA, Cell.MarkB, Cell.MarkB,
      Cell.Empty, Cell.Empty, Cell.Empty, Cell.Empty] =
      (get_available_moves [Cell.MarkA, Cell.MarkA, Cell.MarkA, Cell.MarkB, Cell.MarkB,
        Cell.Empty, Cell.Empty, Cell.Empty, Cell.Empty]).head? :=
  (claim_c6_fallback _).1 (by decide)

/-- C7: `check_win` is true exactly when one of the eight fixed triples is fully
occupied by the symbol (the embedding is purely functional, so the board is
untouched). -/
theorem claim_c7_check_win (b : Board) (s : Cell) :
    check_win b s = true ↔
      ((cellAt b 0 = s ∧ cellAt b 1 = s ∧ cellAt b 2 = s) ∨
       (cellAt b 3 = s ∧ cellAt b 4 = s ∧ cellAt b 5 = s) ∨
       (cellAt b 6 = s ∧ cellAt b 7 = s ∧ cellAt b 8 = s) ∨
       (cellAt b 0 = s ∧ cellAt b 3 = s ∧ cellAt b 6 = s) ∨
       (cellAt b 1 = s ∧ cellAt b 4 = s ∧ cellAt b 7 = s) ∨
       (cellAt b 2 = s ∧ cellAt b 5 = s ∧ cellAt b 8 = s) ∨
       (cellAt b 0 = s ∧ cellAt b 4 = s ∧ cellAt b 8 = s) ∨
       (cellAt b 2 = s ∧ cellAt b 4 = s ∧ cellAt b 6 = s)) :=
  check_win_iff b s

/-- C8: `get_available_moves` returns exactly the in-range indices whose cell is
empty, in strictly ascending order, the empty list on a full board, and `[2, 5]`
on a board whose empty cells are exactly 2 and 5. -/
theorem claim_c8_available_moves (b : Board) :
    (∀ i : Nat, i ∈ get_available_moves b ↔ i < b.length ∧ cellAt b i = Cell.Empty) ∧
    (get_available_moves b).Pairwise (· < ·) ∧
    (check_draw b = true → get_available_moves b = []) ∧
    get_available_moves [Cell.MarkA, Cell.MarkB, Cell.Empty, Cell.MarkA, Cell.MarkB,
      Cell.Empty, Cell.MarkB, Cell.MarkA, Cell.MarkA] = [2, 5] :=
  ⟨fun _ => mem_gam, gam_pairwise b, fun h => gam_of_draw h, by decide⟩

/-- Witness for C8 on the fully drawn board. -/
theorem claim_c8_witness :
    get_available_moves [Cell.MarkA, Cell.MarkB, Cell.MarkA, Cell.MarkA, Cell.MarkB,
      Cell.MarkB, Cell.MarkB, Cell.MarkA, Cell.MarkA] = [] :=
  (claim_c8_available_moves _).2.2.1 (by decide)

/-- C10: `check_win` does not special-case the empty marker — on the all-empty
board, and on any board where any of the 8 fixed lines is entirely blank, it
reports a winning line for `Empty`. -/
theorem claim_c10_empty_symbol :
    check_win emptyBoard Cell.Empty = true ∧
    (∀ b : Board, ∀ l ∈ win_lines, cellAt b l.1 = Cell.Empty →
      cellAt b l.2.1 = Cell.Empty → cellAt b l.2.2 = Cell.Empty →
      check_win b Cell.Empty = true) := by
  refine ⟨by decide, fun b l hl h0 h1 h2 => ?_⟩
  unfold check_win
  rw [List.any_eq_true]
  exact ⟨l, hl, by simp [h0, h1, h2]⟩

/-- Witness for C10 on a board whose only blank line is the column (2,5,8). -/
theorem claim_c10_witness :
    check_win [Cell.MarkA, Cell.MarkB, Cell.Empty, Cell.MarkB, Cell.MarkA, Cell.Empty,
      Cell.MarkB, Cell.MarkA, Cell.Empty] Cell.Empty = true :=
  claim_c10_empty_symbol.2 _ (2, 5, 8) (by decide) (by decide) (by decide) (by decide)

/-! No reachable board has lines for both players. -/

lemma reach_nowin : ∀ {b : Board} {g : GState}, Reach b g →
    (∀ t, g = GState.play t →
      check_win b Cell.MarkA = false ∧ check_win b Cell.MarkB = false) ∧
    (check_win b Cell.MarkA = false ∨ check_win b Cell.MarkB = false) := by
  intro b g h
  induction h with
  | init =>
    refine ⟨fun t _ => ⟨by decide, by decide⟩, Or.inl (by decide)⟩
  | @humanCont b0 m0 h hm hw hd ih =>
    have hprev := (ih.1 _ rfl)
    have hB : check_win (make_move b0 m0 Cell.MarkA) Cell.MarkB = false := by
      by_contra hB
      simp only [Bool.not_eq_false] at hB
      have := win_set_other (by decide) hB
      simp [this] at hprev
    exact ⟨fun t _ => ⟨hw, hB⟩, Or.inl hw⟩
  | @humanEnd b0 m0 h hm hend ih =>
    have hprev := (ih.1 _ rfl)
    have hB : check_win (make_move b0 m0 Cell.MarkA) Cell.MarkB = false := by
      by_contra hB
      simp only [Bool.not_eq_false] at hB
      have := win_set_other (by decide) hB
      simp [this] at hprev
    exact ⟨fun t ht => by simp at ht, Or.inr hB⟩
  | @compCont b0 m0 h hc hw hd ih =>
    have hprev := (ih.1 _ rfl)
    have hA : check_win (make_move b0 m0 Cell.MarkB) Cell.MarkA = false := by
      by_contra hA
      simp only [Bool.not_eq_false] at hA
      have := win_set_other (by decide) hA
      simp [this] at hprev
    exact ⟨fun t _ => ⟨hA, hw⟩, Or.inl hA⟩
  | @compEnd b0 m0 h hc hend ih =>
    have hprev := (ih.1 _ rfl)
    have hA : check_win (make_move b0 m0 Cell.MarkB) Cell.MarkA = false := by
      by_contra hA
      simp only [Bool.not_eq_false] at hA
      have := win_set_other (by decide) hA
      simp [this] at hprev
    exact ⟨fun t ht => by simp at ht, Or.inl hA⟩

/-- C9: on every board reachable by the game loop (human picking any empty cell,
computer playing `get_computer_move`, play stopping at a win or a full board),
the two players never both have a winning line. -/
theorem claim_c9_no_double_win {b : Board} {g : GState} (h : Reach b g) :
    ¬(check_win b Cell.MarkA = true ∧ check_win b Cell.MarkB = true) := by
  rcases (reach_nowin h).2 with hA | hB
  · rintro ⟨h1, _⟩; simp [h1] at hA
  · rintro ⟨_, h2⟩; simp [h2] at hB

/-- Witness for C9 at the initial position. -/
theorem claim_c9_witness :
    ¬(check_win emptyBoard Cell.MarkA = true ∧ check_win emptyBoard Cell.MarkB = true) :=
  claim_c9_no_double_win Reach.init

/-! Pure specification of the candidate loop and order facts about scores. -/

/-- The candidate loop with the board bookkeeping stripped away: child scores
are given by `cs`. -/
def loopSpec (isMax : Bool) (cs : Nat → PScore) :
    List Nat → PScore → Option Nat → PScore × Option Nat
  | [], bs, bm => (bs, bm)
  | m :: rest, bs, bm =>
    if pbetter isMax (cs m) bs then loopSpec isMax cs rest (cs m) (some m)
    else loopSpec isMax cs rest bs bm

lemma pb_irrefl (isMax : Bool) (a : PScore) : pbetter isMax a a = false := by
  cases isMax <;> cases a <;> simp [pbetter, PScore.gtb, PScore.ltb]

lemma pb_asymm {isMax : Bool} {a b : PScore} (h : pbetter isMax a b = true) :
    pbetter isMax b a = false := by
  cases isMax <;> cases a <;> cases b <;>
    simp_all [pbetter, PScore.gtb, PScore.ltb] <;> omega

lemma pb_trans {isMax : Bool} {a b c : PScore} (h1 : pbetter isMax a b = true)
    (h2 : pbetter isMax b c = true) : pbetter isMax a c = true := by
  cases isMax <;> cases a <;> cases b <;> cases c <;>
    simp_all [pbetter, PScore.gtb, PScore.ltb] <;> omega

lemma pb_neg_trans {isMax : Bool} {a b c : PScore} (h1 : pbetter isMax a b = false)
    (h2 : pbetter isMax b c = false) : pbetter isMax a c = false := by
  cases isMax <;> cases a <;> cases b <;> cases c <;>
    simp_all [pbetter, PScore.gtb, PScore.ltb] <;> omega

lemma pb_true_of_true_of_neg {isMax : Bool} {x y z : PScore}
    (h1 : pbetter isMax x y = true) (h2 : pbetter isMax x z = false) :
    pbetter isMax z y = true := by
  cases isMax <;> cases x <;> cases y <;> cases z <;>
    simp_all [pbetter, PScore.gtb, PScore.ltb] <;> omega

/-- The candidate loop computes `loopSpec` of the child scores, the board held
fixed by the restore discipline. -/
lemma loop_to_spec (go : Board → Bool → Board × PScore × Option Nat)
    (hgo : ∀ b im, (go b im).1 = b) (isMax : Bool) :
    ∀ (moves : List Nat) (b : Board) (bs : PScore) (bm : Option Nat),
      (∀ m ∈ moves, cellAt b m = Cell.Empty) →
      (minimaxLoop go isMax b moves bs bm).2 =
        loopSpec isMax (fun m => (go (b.set m (mark isMax)) (!isMax)).2.1) moves bs bm := by
  intro moves
  induction moves with
  | nil => intro b bs bm _; rfl
  | cons m rest ih =>
    intro b bs bm hv
    have hme : cellAt b m = Cell.Empty := hv m (List.mem_cons_self m rest)
    have hrest : ∀ x ∈ rest, cellAt b x = Cell.Empty :=
      fun x hx => hv x (List.mem_cons_of_mem m hx)
    have hb2 : ((go (b.set m (mark isMax)) (!isMax)).1.set m Cell.Empty) = b := by
      rw [hgo, List.set_set, set_of_cellAt_empty b m hme]
    simp only [minimaxLoop, loopSpec, hb2]
    by_cases hc : pbetter isMax (go (b.set m (mark isMax)) (!isMax)).2.1 bs = true
    · simp only [hc, if_true]
      exact ih b _ _ hrest
    · simp only [Bool.not_eq_true] at hc
      simp only [hc, Bool.false_eq_true, if_false]
      exact ih b bs bm hrest

/-! Shape lemmas for `loopSpec`. -/

section LoopSpecLemmas

variable {isMax : Bool} {cs : Nat → PScore}

lemma loopSpec_ge_init : ∀ (moves : List Nat) (bs : PScore) (bm : Option Nat),
    pbetter isMax bs (loopSpec isMax cs moves bs bm).1 = false := by
  intro moves
  induction moves with
  | nil => intro bs bm; exact pb_irrefl isMax bs
  | cons m rest ih =>
    intro bs bm
    simp only [loopSpec]
    by_cases hc : pbetter isMax (cs m) bs = true
    · simp only [hc, if_true]
      have hbase := ih (cs m) (some m)
      have h1 : pbetter isMax (loopSpec isMax cs rest (cs m) (some m)).1 bs = true :=
        pb_true_of_true_of_neg hc hbase
      exact pb_asymm h1
    · simp only [Bool.not_eq_true] at hc
      simp only [hc, Bool.false_eq_true, if_false]
      exact ih bs bm

lemma loopSpec_no_beat : ∀ (moves : List Nat) (bs : PScore) (bm : Option Nat),
    ∀ m ∈ moves, pbetter isMax (cs m) (loopSpec isMax cs moves bs bm).1 = false := by
  intro moves
  induction moves with
  | nil => intro bs bm m hm; simp at hm
  | cons m0 rest ih =>
    intro bs bm m hm
    simp only [loopSpec]
    by_cases hc : pbetter isMax (cs m0) bs = true
    · simp only [hc, if_true]
      rcases List.mem_cons.1 hm with rfl | hmr
      · exact loopSpec_ge_init rest (cs m) (some m)
      · exact ih (cs m0) (some m0) m hmr
    · simp only [Bool.not_eq_true] at hc
      simp only [hc, Bool.false_eq_true, if_false]
      rcases List.mem_cons.1 hm with rfl | hmr
      · exact pb_neg_trans hc (loopSpec_ge_init rest bs bm)
      · exact ih bs bm m hmr

lemma loopSpec_shape : ∀ (moves : List Nat) (bs : PScore) (bm : Option Nat),
    loopSpec isMax cs moves bs bm = (bs, bm) ∨
      ∃ k ∈ moves, (loopSpec isMax cs moves bs bm).2 = some k ∧
        (loopSpec isMax cs moves bs bm).1 = cs k := by
  intro moves
  induction moves with
  | nil => intro bs bm; exact Or.inl rfl
  | cons m0 rest ih =>
    intro bs bm
    simp only [loopSpec]
    by_cases hc : pbetter isMax (cs m0) bs = true
    · simp only [hc, if_true]
      rcases ih (cs m0) (some m0) with h | ⟨k, hk, h2, h1⟩
      · exact Or.inr ⟨m0, List.mem_cons_self m0 rest, by rw [h], by rw [h]⟩
      · exact Or.inr ⟨k, List.mem_cons_of_mem m0 hk, h2, h1⟩
    · simp only [Bool.not_eq_true] at hc
      simp only [hc, Bool.false_eq_true, if_false]
      rcases ih bs bm with h | ⟨k, hk, h2, h1⟩
      · exact Or.inl h
      · exact Or.inr ⟨k, List.mem_cons_of_mem m0 hk, h2, h1⟩

lemma loopSpec_strict : ∀ (moves : List Nat) (bs : PScore) (bm : Option Nat),
    (loopSpec isMax cs moves bs bm).2 ≠ bm →
    pbetter isMax (loopSpec isMax cs moves bs bm).1 bs = true := by
  intro moves
  induction moves with
  | nil => intro bs bm h; exact absurd rfl h
  | cons m0 rest ih =>
    intro bs bm h
    simp only [loopSpec] at h ⊢
    by_cases hc : pbetter isMax (cs m0) bs = true
    · simp only [hc, if_true] at h ⊢
      exact pb_true_of_true_of_neg hc (loopSpec_ge_init rest (cs m0) (some m0))
    · simp only [Bool.not_eq_true] at hc
      simp only [hc, Bool.false_eq_true, if_false] at h ⊢
      exact ih bs bm h

lemma loopSpec_stay : ∀ (moves : List Nat) (bs : PScore) (bm : Option Nat),
    (∀ j ∈ moves, bm ≠ some j) →
    (loopSpec isMax cs moves bs bm).2 = bm →
    loopSpec isMax cs moves bs bm = (bs, bm) := by
  intro moves
  induction moves with
  | nil => intro bs bm _ _; rfl
  | cons m0 rest ih =>
    intro bs bm hfresh h2
    simp only [loopSpec] at h2 ⊢
    by_cases hc : pbetter isMax (cs m0) bs = true
    · simp only [hc, if_true] at h2 ⊢
      exfalso
      rcases @loopSpec_shape isMax cs rest (cs m0) (some m0) with
        heq | ⟨k, hk, hk2, _⟩
      · rw [heq] at h2
        exact hfresh m0 (List.mem_cons_self m0 rest) h2.symm
      · rw [hk2] at h2
        exact hfresh k (List.mem_cons_of_mem m0 hk) h2.symm
    · simp only [Bool.not_eq_true] at hc
      simp only [hc, Bool.false_eq_true, if_false] at h2 ⊢
      exact ih bs bm (fun j hj => hfresh j (List.mem_cons_of_mem m0 hj)) h2

lemma loopSpec_first : ∀ (moves : List Nat) (bs : PScore) (bm : Option Nat) (k : Nat),
    moves.Nodup →
    (∀ j ∈ moves, bm ≠ some j) →
    (loopSpec isMax cs moves bs bm).2 = some k →
    bm ≠ some k →
    ∃ pre post, moves = pre ++ k :: post ∧
      (loopSpec isMax cs moves bs bm).1 = cs k ∧
      ∀ j ∈ pre, cs j ≠ (loopSpec isMax cs moves bs bm).1 := by
  intro moves
  induction moves with
  | nil =>
    intro bs bm k _ _ h2 hbm
    simp only [loopSpec] at h2
    exact absurd h2 hbm
  | cons m0 rest ih =>
    intro bs bm k hnd hfresh h2 hbm
    have hnd0 : m0 ∉ rest := (List.nodup_cons.1 hnd).1
    have hndr : rest.Nodup := (List.nodup_cons.1 hnd).2
    simp only [loopSpec] at h2 ⊢
    by_cases hc : pbetter isMax (cs m0) bs = true
    · simp only [hc, if_true] at h2 ⊢
      by_cases hk0 : k = m0
      · subst hk0
        have hres := @loopSpec_stay isMax cs rest (cs k) (some k)
          (fun j hj hje => hnd0 (by injection hje with hh; rw [hh]; exact hj)) h2
        refine ⟨[], rest, rfl, by rw [hres], fun j hj => by simp at hj⟩
      · obtain ⟨pre, post, hsplit, h1, hpre⟩ := ih (cs m0) (some m0) k hndr
          (fun j hj hje => hnd0 (by rw [Option.some_inj.1 hje]; exact hj))
          h2 (fun hje => hk0 (Option.some_inj.1 hje).symm)
        refine ⟨m0 :: pre, post, by rw [hsplit]; exact rfl, h1, ?_⟩
        intro j hj
        rcases List.mem_cons.1 hj with rfl | hjp
        · intro heq
          have hstrict := @loopSpec_strict isMax cs rest (cs j) (some j)
            (by rw [h2]; intro hh; exact hk0 (Option.some_inj.1 hh))
          rw [← heq] at hstrict
          simp [pb_irrefl] at hstrict
        · exact hpre j hjp
    · simp only [Bool.not_eq_true] at hc
      simp only [hc, Bool.false_eq_true, if_false] at h2 ⊢
      obtain ⟨pre, post, hsplit, h1, hpre⟩ := ih bs bm k hndr
        (fun j hj => hfresh j (List.mem_cons_of_mem m0 hj)) h2 hbm
      refine ⟨m0 :: pre, post, by rw [hsplit]; exact rfl, h1, ?_⟩
      intro j hj
      rcases List.mem_cons.1 hj with rfl | hjp
      · intro heq
        have hstrict := @loopSpec_strict isMax cs rest bs bm
          (by rw [h2]; exact fun hh => hbm hh.symm)
        rw [← heq] at hstrict
        rw [hstrict] at hc
        simp at hc
      · exact hpre j hjp

lemma loopSpec_fin : ∀ (moves : List Nat) (bs : PScore) (bm : Option Nat),
    (∀ m ∈ moves, ∃ s : Int, cs m = PScore.fin s ∧ (s = -1 ∨ s = 0 ∨ s = 1)) →
    ((∃ s : Int, bs = PScore.fin s ∧ (s = -1 ∨ s = 0 ∨ s = 1)) ∧ bm ≠ none) →
    (∃ s : Int, (loopSpec isMax cs moves bs bm).1 = PScore.fin s ∧ (s = -1 ∨ s = 0 ∨ s = 1)) ∧
      (loopSpec isMax cs moves bs bm).2 ≠ none := by
  intro moves
  induction moves with
  | nil => intro bs bm _ h; exact h
  | cons m0 rest ih =>
    intro bs bm hall h
    simp only [loopSpec]
    by_cases hc : pbetter isMax (cs m0) bs = true
    · simp only [hc, if_true]
      exact ih (cs m0) (some m0) (fun m hm => hall m (List.mem_cons_of_mem m0 hm))
        ⟨hall m0 (List.mem_cons_self m0 rest), by simp⟩
    · simp only [Bool.not_eq_true] at hc
      simp only [hc, Bool.false_eq_true, if_false]
      exact ih bs bm (fun m hm => hall m (List.mem_cons_of_mem m0 hm)) h

/-! Fuel independence and totality of the search. -/

lemma loopSpec_congr {isMax : Bool} {cs1 cs2 : Nat → PScore} :
    ∀ (moves : List Nat) (bs : PScore) (bm : Option Nat),
      (∀ m ∈ moves, cs1 m = cs2 m) →
      loopSpec isMax cs1 moves bs bm = loopSpec isMax cs2 moves bs bm := by
  intro moves
  induction moves with
  | nil => intro bs bm _; rfl
  | cons m0 rest ih =>
    intro bs bm hcs
    have h0 : cs1 m0 = cs2 m0 := hcs m0 (List.mem_cons_self m0 rest)
    have hr : ∀ m ∈ rest, cs1 m = cs2 m := fun m hm => hcs m (List.mem_cons_of_mem m0 hm)
    simp only [loopSpec, h0]
    by_cases hc : pbetter isMax (cs2 m0) bs = true
    · simp only [hc, if_true]
      exact ih (cs2 m0) (some m0) hr
    · simp only [Bool.not_eq_true] at hc
      simp only [hc, Bool.false_eq_true, if_false]
      exact ih bs bm hr

lemma mark_ne_empty (isMax : Bool) : mark isMax ≠ Cell.Empty := by
  cases isMax <;> simp [mark]

lemma draw_iff_count (b : Board) : check_draw b = true ↔ b.count Cell.Empty = 0 := by
  rw [List.count_eq_zero]
  simp [check_draw, List.all_eq_true]
  constructor
  · intro h hmem
    exact (h Cell.Empty hmem) rfl
  · intro h x hx hxe
    subst hxe
    exact h hx

lemma count_child {b : Board} {m : Nat} (isMax : Bool) (hm : m ∈ get_available_moves b) :
    (b.set m (mark isMax)).count Cell.Empty + 1 = b.count Cell.Empty := by
  obtain ⟨hlt, he⟩ := mem_gam.1 hm
  exact count_set_empty b m (mark isMax) hlt he (mark_ne_empty isMax)

lemma count_child_lt {b : Board} {m : Nat} (isMax : Bool) (hm : m ∈ get_available_moves b) :
    (b.set m (mark isMax)).count Cell.Empty < b.count Cell.Empty := by
  have := count_child isMax hm
  omega

/-- Off the terminal cases, the score and move of the search are `loopSpec` of
the child scores at one less fuel. -/
lemma minimax_nonterminal {b : Board} (isMax : Bool)
    (h1 : check_win b Cell.MarkB = false) (h2 : check_win b Cell.MarkA = false)
    (h3 : check_draw b = false) :
    (minimax b isMax).2 =
      loopSpec isMax
        (fun m => (minimaxF (b.count Cell.Empty) (b.set m (mark isMax)) (!isMax)).2.1)
        (get_available_moves b) (if isMax then PScore.negInf else PScore.posInf) none := by
  show (minimaxF (b.count Cell.Empty + 1) b isMax).2 = _
  simp only [minimaxF, h1, h2, h3, Bool.false_eq_true, if_false]
  exact loop_to_spec _ (minimaxF_frame _) isMax _ b _ none gam_all_empty

lemma minimaxF_fuel_indep : ∀ (n : Nat) (b : Board) (isMax : Bool), b.count Cell.Empty = n →
    ∀ f1 f2 : Nat, n < f1 → n < f2 → minimaxF f1 b isMax = minimaxF f2 b isMax := by
  intro n
  induction n using Nat.strong_induction_on with
  | _ n ih =>
    intro b isMax hn f1 f2 hf1 hf2
    obtain ⟨g1, rfl⟩ : ∃ g, f1 = g + 1 := ⟨f1 - 1, by omega⟩
    obtain ⟨g2, rfl⟩ : ∃ g, f2 = g + 1 := ⟨f2 - 1, by omega⟩
    by_cases h1 : check_win b Cell.MarkB = true
    · simp [minimaxF, h1]
    · by_cases h2 : check_win b Cell.MarkA = true
      · simp [minimaxF, h1, h2]
      · by_cases h3 : check_draw b = true
        · simp [minimaxF, h1, h2, h3]
        · simp only [Bool.not_eq_true] at h1 h2 h3
          simp only [minimaxF, h1, h2, h3, Bool.false_eq_true, if_false]
          have hn1 : 1 ≤ n := by
            rcases Nat.eq_zero_or_pos n with h0 | h0
            · exfalso
              rw [h0] at hn
              exact absurd ((draw_iff_count b).2 hn) (by simp [h3])
            · exact h0
          apply Prod.ext
          · rw [loop_frame _ (minimaxF_frame g1) isMax _ b _ none gam_all_empty,
              loop_frame _ (minimaxF_frame g2) isMax _ b _ none gam_all_empty]
          · rw [loop_to_spec _ (minimaxF_frame g1) isMax _ b _ none gam_all_empty,
              loop_to_spec _ (minimaxF_frame g2) isMax _ b _ none gam_all_empty]
            apply loopSpec_congr
            intro m hm
            have hcc := count_child isMax hm
            have : (b.set m (mark isMax)).count Cell.Empty = n - 1 := by omega
            rw [ih (n - 1) (by omega) _ (!isMax) this g1 g2 (by omega) (by omega)]

lemma minimaxF_eq_minimax {b : Board} {fuel : Nat} (isMax : Bool)
    (h : b.count Cell.Empty < fuel) : minimaxF fuel b isMax = minimax b isMax :=
  minimaxF_fuel_indep _ b isMax rfl fuel (b.count Cell.Empty + 1) h (by omega)

lemma minimax_child_eq {b : Board} {m : Nat} (isMax : Bool) (hm : m ∈ get_available_moves b) :
    minimaxF (b.count Cell.Empty) (b.set m (mark isMax)) (!isMax) =
      minimax (b.set m (mark isMax)) (!isMax) :=
  minimaxF_eq_minimax (!isMax) (count_child_lt isMax hm)

lemma pb_fin_init (isMax : Bool) (s : Int) :
    pbetter isMax (PScore.fin s) (if isMax then PScore.negInf else PScore.posInf) = true := by
  cases isMax <;> simp [pbetter, PScore.gtb, PScore.ltb]

lemma loopSpec_entry {isMax : Bool} {cs : Nat → PScore} (moves : List Nat)
    (hne : moves ≠ [])
    (hall : ∀ m ∈ moves, ∃ s : Int, cs m = PScore.fin s ∧ (s = -1 ∨ s = 0 ∨ s = 1)) :
    (∃ s : Int,
      (loopSpec isMax cs moves (if isMax then PScore.negInf else PScore.posInf) none).1 =
        PScore.fin s ∧ (s = -1 ∨ s = 0 ∨ s = 1)) ∧
    (loopSpec isMax cs moves (if isMax then PScore.negInf else PScore.posInf) none).2 ≠ none := by
  cases moves with
  | nil => exact absurd rfl hne
  | cons m0 rest =>
    obtain ⟨s0, hs0, hs0r⟩ := hall m0 (List.mem_cons_self m0 rest)
    have hup : pbetter isMax (cs m0) (if isMax then PScore.negInf else PScore.posInf) = true := by
      rw [hs0]; exact pb_fin_init isMax s0
    simp only [loopSpec, hup, if_true]
    exact loopSpec_fin rest (cs m0) (some m0)
      (fun m hm => hall m (List.mem_cons_of_mem m0 hm))
      ⟨⟨s0, hs0, hs0r⟩, by simp⟩

/-- Totality of the score: the search always yields a score in `{-1, 0, 1}`,
and a move whenever the board is not terminal. -/
lemma minimax_fin : ∀ (n : Nat) (b : Board), b.count Cell.Empty = n → ∀ isMax : Bool,
    (∃ s : Int, (minimax b isMax).2.1 = PScore.fin s ∧ (s = -1 ∨ s = 0 ∨ s = 1)) ∧
    (check_win b Cell.MarkB = false → check_win b Cell.MarkA = false →
      check_draw b = false → (minimax b isMax).2.2 ≠ none) := by
  intro n
  induction n using Nat.strong_induction_on with
  | _ n ih =>
    intro b hn isMax
    by_cases h1 : check_win b Cell.MarkB = true
    · constructor
      · exact ⟨1, by simp [(minimax_terminal b isMax).1 h1], by omega⟩
      · intro hB _ _; simp [hB] at h1
    · by_cases h2 : check_win b Cell.MarkA = true
      · constructor
        · exact ⟨-1, by simp [(minimax_terminal b isMax).2.1 (by simpa using h1) h2], by omega⟩
        · intro _ hA _; simp [hA] at h2
      · by_cases h3 : check_draw b = true
        · constructor
          · exact ⟨0, by simp [(minimax_terminal b isMax).2.2 (by simpa using h1)
              (by simpa using h2) h3], by omega⟩
          · intro _ _ hD; simp [hD] at h3
        · simp only [Bool.not_eq_true] at h1 h2 h3
          have hsp := minimax_nonterminal isMax h1 h2 h3
          have hne := gam_ne_nil h3
          have hall : ∀ m ∈ get_available_moves b, ∃ s : Int,
              (minimaxF (b.count Cell.Empty) (b.set m (mark isMax)) (!isMax)).2.1 =
                PScore.fin s ∧ (s = -1 ∨ s = 0 ∨ s = 1) := by
            intro m hm
            rw [minimax_child_eq isMax hm]
            have hcc := count_child isMax hm
            exact (ih ((b.set m (mark isMax)).count Cell.Empty) (by omega) _ rfl (!isMax)).1
          have hloop := @loopSpec_entry isMax _ (get_available_moves b) hne hall
          constructor
          · rw [show (minimax b isMax).2.1 = ((minimax b isMax).2).1 from rfl, hsp]
            exact hloop.1
          · intro _ _ _
            rw [show (minimax b isMax).2.2 = ((minimax b isMax).2).2 from rfl, hsp]
            exact hloop.2

/-- C5: with fuel beyond the number of empty cells the fueled search equals
`minimax` (the recursion bottoms out; descending always removes one empty
cell), and on a board with an empty cell and no winner the search returns a
score in `{-1, 0, 1}` and a move; the move is `none` only on terminal boards. -/
theorem claim_c5_termination (b : Board) (isMax : Bool) :
    (∀ fuel : Nat, b.count Cell.Empty < fuel → minimaxF fuel b isMax = minimax b isMax) ∧
    (∀ m ∈ get_available_moves b,
      (b.set m (mark isMax)).count Cell.Empty < b.count Cell.Empty) ∧
    (0 < b.count Cell.Empty → check_win b Cell.MarkB = false →
      check_win b Cell.MarkA = false →
      (∃ s : Int, (minimax b isMax).2.1 = PScore.fin s ∧ (s = -1 ∨ s = 0 ∨ s = 1)) ∧
        (minimax b isMax).2.2 ≠ none) ∧
    ((minimax b isMax).2.2 = none →
      check_win b Cell.MarkB = true ∨ check_win b Cell.MarkA = true ∨
        check_draw b = true) := by
  refine ⟨fun fuel h => minimaxF_eq_minimax isMax h,
    fun m hm => count_child_lt isMax hm, fun hc h1 h2 => ?_, fun hnone => ?_⟩
  · have h3 : check_draw b = false := by
      by_contra hD
      simp only [Bool.not_eq_false] at hD
      have := (draw_iff_count b).1 hD
      omega
    exact ⟨(minimax_fin _ b rfl isMax).1, (minimax_fin _ b rfl isMax).2 h1 h2 h3⟩
  · by_contra hterm
    push_neg at hterm
    obtain ⟨hB, hA, hD⟩ := hterm
    simp only [Bool.not_eq_true] at hB hA hD
    exact (minimax_fin _ b rfl isMax).2 hB hA hD hnone

/-- Witness for C5: fuel independence and totality on a two-empties board,
the move-is-none clause on the fully drawn board. -/
theorem claim_c5_witness :
    (minimaxF 10 [Cell.MarkA, Cell.MarkB, Cell.Empty, Cell.MarkA, Cell.MarkB, Cell.Empty,
        Cell.MarkB, Cell.MarkA, Cell.MarkA] true =
      minimax [Cell.MarkA, Cell.MarkB, Cell.Empty, Cell.MarkA, Cell.MarkB, Cell.Empty,
        Cell.MarkB, Cell.MarkA, Cell.MarkA] true) ∧
    (([Cell.MarkA, Cell.MarkB, Cell.Empty, Cell.MarkA, Cell.MarkB, Cell.Empty,
        Cell.MarkB, Cell.MarkA, Cell.MarkA].set 2 (mark true)).count Cell.Empty <
      [Cell.MarkA, Cell.MarkB, Cell.Empty, Cell.MarkA, Cell.MarkB, Cell.Empty,
        Cell.MarkB, Cell.MarkA, Cell.MarkA].count Cell.Empty) ∧
    ((∃ s : Int, (minimax [Cell.MarkA, Cell.MarkB, Cell.Empty, Cell.MarkA, Cell.MarkB,
        Cell.Empty, Cell.MarkB, Cell.MarkA, Cell.MarkA] true).2.1 = PScore.fin s ∧
        (s = -1 ∨ s = 0 ∨ s = 1)) ∧
      (minimax [Cell.MarkA, Cell.MarkB, Cell.Empty, Cell.MarkA, Cell.MarkB, Cell.Empty,
        Cell.MarkB, Cell.MarkA, Cell.MarkA] true).2.2 ≠ none) ∧
    (check_win [Cell.MarkA, Cell.MarkB, Cell.MarkA, Cell.MarkA, Cell.MarkB, Cell.MarkB,
        Cell.MarkB, Cell.MarkA, Cell.MarkA] Cell.MarkB = true ∨
      check_win [Cell.MarkA, Cell.MarkB, Cell.MarkA, Cell.MarkA, Cell.MarkB, Cell.MarkB,
        Cell.MarkB, Cell.MarkA, Cell.MarkA] Cell.MarkA = true ∨
      check_draw [Cell.MarkA, Cell.MarkB, Cell.MarkA, Cell.MarkA, Cell.MarkB, Cell.MarkB,
        Cell.MarkB, Cell.MarkA, Cell.MarkA] = true) :=
  ⟨(claim_c5_termination _ true).1 10 (by decide),
   (claim_c5_termination _ true).2.1 2 (by decide),
   (claim_c5_termination _ true).2.2.1 (by decide) (by decide) (by decide),
   (claim_c5_termination _ true).2.2.2 (by decide)⟩

/-- The move returned by the search is the first candidate, in ascending order,
whose child score equals the returned score. -/
lemma minimax_first_best {b : Board} {isMax : Bool} {k : Nat}
    (hk : (minimax b isMax).2.2 = some k) :
    k ∈ get_available_moves b ∧
    (minimax (b.set k (mark isMax)) (!isMax)).2.1 = (minimax b isMax).2.1 ∧
    (∀ j ∈ get_available_moves b, j < k →
      (minimax (b.set j (mark isMax)) (!isMax)).2.1 ≠ (minimax b isMax).2.1) := by
  by_cases h1 : check_win b Cell.MarkB = true
  · rw [(minimax_terminal b isMax).1 h1] at hk; simp at hk
  · by_cases h2 : check_win b Cell.MarkA = true
    · rw [(minimax_terminal b isMax).2.1 (by simpa using h1) h2] at hk; simp at hk
    · by_cases h3 : check_draw b = true
      · rw [(minimax_terminal b isMax).2.2 (by simpa using h1) (by simpa using h2) h3]
          at hk
        simp at hk
      · simp only [Bool.not_eq_true] at h1 h2 h3
        have hsp := minimax_nonterminal isMax h1 h2 h3
        have hk2 : (loopSpec isMax
            (fun m => (minimaxF (b.count Cell.Empty) (b.set m (mark isMax)) (!isMax)).2.1)
            (get_available_moves b)
            (if isMax then PScore.negInf else PScore.posInf) none).2 = some k := by
          rw [show (minimax b isMax).2.2 = ((minimax b isMax).2).2 from rfl, hsp] at hk
          exact hk
        obtain ⟨pre, post, hsplit, hach, hpre⟩ := loopSpec_first (get_available_moves b)
          _ none k (gam_pairwise b).nodup (fun j _ => by simp) hk2 (by simp)
        have hkmem : k ∈ get_available_moves b := by
          rw [hsplit]
          exact List.mem_append.2 (Or.inr (List.mem_cons_self k post))
        refine ⟨hkmem, ?_, ?_⟩
        · rw [← minimax_child_eq isMax hkmem,
            show (minimax b isMax).2.1 = ((minimax b isMax).2).1 from rfl, hsp]
          exact hach.symm ▸ rfl
        · intro j hj hjk
          have hjpre : j ∈ pre := by
            rw [hsplit] at hj
            rcases List.mem_append.1 hj with hjp | hjkp
            · exact hjp
            · rcases List.mem_cons.1 hjkp with rfl | hjpost
              · omega
              · exfalso
                have hpair := gam_pairwise b
                rw [hsplit] at hpair
                have hcross := (List.pairwise_append.1 hpair).2.1
                have := (List.pairwise_cons.1 hcross).1 j hjpost
                omega
          have := hpre j hjpre
          rw [← minimax_child_eq isMax hj,
            show (minimax b isMax).2.1 = ((minimax b isMax).2).1 from rfl, hsp]
          exact this

/-! Bridge between list boards and ternary codes. -/

lemma board9 (b : Board) (hb : b.length = 9) :
    ∃ c0 c1 c2 c3 c4 c5 c6 c7 c8 : Cell, b = [c0, c1, c2, c3, c4, c5, c6, c7, c8] := by
  cases b with
  | nil => simp at hb
  | cons c0 b => cases b with
    | nil => simp at hb
    | cons c1 b => cases b with
      | nil => simp at hb
      | cons c2 b => cases b with
        | nil => simp at hb
        | cons c3 b => cases b with
          | nil => simp at hb
          | cons c4 b => cases b with
            | nil => simp at hb
            | cons c5 b => cases b with
              | nil => simp at hb
              | cons c6 b => cases b with
                | nil => simp at hb
                | cons c7 b => cases b with
                  | nil => simp at hb
                  | cons c8 b => cases b with
                    | nil => exact ⟨c0, c1, c2, c3, c4, c5, c6, c7, c8, rfl⟩
                    | cons c9 b => simp at hb


lemma nat_div_eq (a b : Nat) : Nat.div a b = a / b := rfl

lemma nat_mod_eq (a b : Nat) : Nat.mod a b = a % b := rfl

lemma nat_add_eq (a b : Nat) : Nat.add a b = a + b := rfl

lemma nat_mul_eq (a b : Nat) : Nat.mul a b = a * b := rfl

lemma nat_sub_eq (a b : Nat) : Nat.sub a b = a - b := rfl

lemma nat_beq_iff (a b : Nat) : Nat.beq a b = true ↔ a = b := by rw [Nat.beq_eq]

lemma nat_blt_iff (a b : Nat) : Nat.blt a b = true ↔ a < b := by rw [Nat.blt_eq]

lemma nat_ble_iff (a b : Nat) : Nat.ble a b = true ↔ a ≤ b := by rw [Nat.ble_eq]

lemma cellN_lt (c : Cell) : cellN c < 3 := by
  cases c <;> simp [cellN]

lemma beq_cellN (x y : Cell) : Nat.beq (cellN x) (cellN y) = (x == y) := by
  cases x <;> cases y <;> rfl

lemma d3e0 (c0 c1 c2 c3 c4 c5 c6 c7 c8 : Cell) : d3 (enc [c0, c1, c2, c3, c4, c5, c6, c7, c8]) 0 = cellN c0 := by
  have h0 := cellN_lt c0
  have h1 := cellN_lt c1
  have h2 := cellN_lt c2
  have h3 := cellN_lt c3
  have h4 := cellN_lt c4
  have h5 := cellN_lt c5
  have h6 := cellN_lt c6
  have h7 := cellN_lt c7
  have h8 := cellN_lt c8
  simp [enc, d3, pow3, nat_div_eq, nat_mod_eq]
  omega

lemma d3e1 (c0 c1 c2 c3 c4 c5 c6 c7 c8 : Cell) : d3 (enc [c0, c1, c2, c3, c4, c5, c6, c7, c8]) 1 = cellN c1 := by
  have h0 := cellN_lt c0
  have h1 := cellN_lt c1
  have h2 := cellN_lt c2
  have h3 := cellN_lt c3
  have h4 := cellN_lt c4
  have h5 := cellN_lt c5
  have h6 := cellN_lt c6
  have h7 := cellN_lt c7
  have h8 := cellN_lt c8
  simp [enc, d3, pow3, nat_div_eq, nat_mod_eq]
  omega

lemma d3e2 (c0 c1 c2 c3 c4 c5 c6 c7 c8 : Cell) : d3 (enc [c0, c1, c2, c3, c4, c5, c6, c7, c8]) 2 = cellN c2 := by
  have h0 := cellN_lt c0
  have h1 := cellN_lt c1
  have h2 := cellN_lt c2
  have h3 := cellN_lt c3
  have h4 := cellN_lt c4
  have h5 := cellN_lt c5
  have h6 := cellN_lt c6
  have h7 := cellN_lt c7
  have h8 := cellN_lt c8
  simp [enc, d3, pow3, nat_div_eq, nat_mod_eq]
  omega

lemma d3e3 (c0 c1 c2 c3 c4 c5 c6 c7 c8 : Cell) : d3 (enc [c0, c1, c2, c3, c4, c5, c6, c7, c8]) 3 = cellN c3 := by
  have h0 := cellN_lt c0
  have h1 := cellN_lt c1
  have h2 := cellN_lt c2
  have h3 := cellN_lt c3
  have h4 := cellN_lt c4
  have h5 := cellN_lt c5
  have h6 := cellN_lt c6
  have h7 := cellN_lt c7
  have h8 := cellN_lt c8
  simp [enc, d3, pow3, nat_div_eq, nat_mod_eq]
  omega

lemma d3e4 (c0 c1 c2 c3 c4 c5 c6 c7 c8 : Cell) : d3 (enc [c0, c1, c2, c3, c4, c5, c6, c7, c8]) 4 = cellN c4 := by
  have h0 := cellN_lt c0
  have h1 := cellN_lt c1
  have h2 := cellN_lt c2
  have h3 := cellN_lt c3
  have h4 := cellN_lt c4
  have h5 := cellN_lt c5
  have h6 := cellN_lt c6
  have h7 := cellN_lt c7
  have h8 := cellN_lt c8
  simp [enc, d3, pow3, nat_div_eq, nat_mod_eq]
  omega

lemma d3e5 (c0 c1 c2 c3 c4 c5 c6 c7 c8 : Cell) : d3 (enc [c0, c1, c2, c3, c4, c5, c6, c7, c8]) 5 = cellN c5 := by
  have h0 := cellN_lt c0
  have h1 := cellN_lt c1
  have h2 := cellN_lt c2
  have h3 := cellN_lt c3
  have h4 := cellN_lt c4
  have h5 := cellN_lt c5
  have h6 := cellN_lt c6
  have h7 := cellN_lt c7
  have h8 := cellN_lt c8
  simp [enc, d3, pow3, nat_div_eq, nat_mod_eq]
  omega

lemma d3e6 (c0 c1 c2 c3 c4 c5 c6 c7 c8 : Cell) : d3 (enc [c0, c1, c2, c3, c4, c5, c6, c7, c8]) 6 = cellN c6 := by
  have h0 := cellN_lt c0
  have h1 := cellN_lt c1
  have h2 := cellN_lt c2
  have h3 := cellN_lt c3
  have h4 := cellN_lt c4
  have h5 := cellN_lt c5
  have h6 := cellN_lt c6
  have h7 := cellN_lt c7
  have h8 := cellN_lt c8
  simp [enc, d3, pow3, nat_div_eq, nat_mod_eq]
  omega

lemma d3e7 (c0 c1 c2 c3 c4 c5 c6 c7 c8 : Cell) : d3 (enc [c0, c1, c2, c3, c4, c5, c6, c7, c8]) 7 = cellN c7 := by
  have h0 := cellN_lt c0
  have h1 := cellN_lt c1
  have h2 := cellN_lt c2
  have h3 := cellN_lt c3
  have h4 := cellN_lt c4
  have h5 := cellN_lt c5
  have h6 := cellN_lt c6
  have h7 := cellN_lt c7
  have h8 := cellN_lt c8
  simp [enc, d3, pow3, nat_div_eq, nat_mod_eq]
  omega

lemma d3e8 (c0 c1 c2 c3 c4 c5 c6 c7 c8 : Cell) : d3 (enc [c0, c1, c2, c3, c4, c5, c6, c7, c8]) 8 = cellN c8 := by
  have h0 := cellN_lt c0
  have h1 := cellN_lt c1
  have h2 := cellN_lt c2
  have h3 := cellN_lt c3
  have h4 := cellN_lt c4
  have h5 := cellN_lt c5
  have h6 := cellN_lt c6
  have h7 := cellN_lt c7
  have h8 := cellN_lt c8
  simp [enc, d3, pow3, nat_div_eq, nat_mod_eq]
  omega

lemma beq_cellN0 (x : Cell) : Nat.beq (cellN x) 0 = (x == Cell.Empty) := by
  cases x <;> rfl

lemma cellN_mark (isMax : Bool) : cellN (mark isMax) = cond isMax 2 1 := by
  cases isMax <;> rfl

lemma range9 : List.range 9 = [0, 1, 2, 3, 4, 5, 6, 7, 8] := by decide

lemma winN_enc9 (c0 c1 c2 c3 c4 c5 c6 c7 c8 : Cell) (s : Cell) :
    winN (enc [c0, c1, c2, c3, c4, c5, c6, c7, c8]) (cellN s) =
      check_win [c0, c1, c2, c3, c4, c5, c6, c7, c8] s := by
  simp only [winN, d3e0, d3e1, d3e2, d3e3, d3e4, d3e5, d3e6, d3e7, d3e8, beq_cellN]
  simp [check_win, win_lines, cellAt, Bool.or_assoc, Bool.and_assoc]

lemma fullN_enc9 (c0 c1 c2 c3 c4 c5 c6 c7 c8 : Cell) :
    fullN (enc [c0, c1, c2, c3, c4, c5, c6, c7, c8]) =
      check_draw [c0, c1, c2, c3, c4, c5, c6, c7, c8] := by
  simp only [fullN, d3e0, d3e1, d3e2, d3e3, d3e4, d3e5, d3e6, d3e7, d3e8, beq_cellN0]
  simp [check_draw, Bool.and_assoc]

lemma movesN_enc9 (c0 c1 c2 c3 c4 c5 c6 c7 c8 : Cell) :
    movesN (enc [c0, c1, c2, c3, c4, c5, c6, c7, c8]) =
      get_available_moves [c0, c1, c2, c3, c4, c5, c6, c7, c8] := by
  show _ = (List.range 9).filter _
  rw [range9]
  apply List.filter_congr
  intro a ha
  fin_cases ha <;>
    simp [d3e0, d3e1, d3e2, d3e3, d3e4, d3e5, d3e6, d3e7, d3e8, beq_cellN0, cellAt]

lemma enc_lt9 (c0 c1 c2 c3 c4 c5 c6 c7 c8 : Cell) :
    enc [c0, c1, c2, c3, c4, c5, c6, c7, c8] < 19683 := by
  have h0 := cellN_lt c0
  have h1 := cellN_lt c1
  have h2 := cellN_lt c2
  have h3 := cellN_lt c3
  have h4 := cellN_lt c4
  have h5 := cellN_lt c5
  have h6 := cellN_lt c6
  have h7 := cellN_lt c7
  have h8 := cellN_lt c8
  simp [enc]
  omega

lemma enc_set9 (c0 c1 c2 c3 c4 c5 c6 c7 c8 : Cell) (m : Nat) (c : Cell) (hm : m < 9)
    (he : cellAt [c0, c1, c2, c3, c4, c5, c6, c7, c8] m = Cell.Empty) :
    enc ([c0, c1, c2, c3, c4, c5, c6, c7, c8].set m c) =
      enc [c0, c1, c2, c3, c4, c5, c6, c7, c8] + cellN c * pow3 m := by
  interval_cases m <;>
    · simp only [cellAt, List.getD_cons_zero, List.getD_cons_succ] at he
      subst he
      simp [enc, cellN, pow3]
      omega

/-! Wrappers for boards known only by their length. -/

lemma winN_enc {b : Board} (hb : b.length = 9) (s : Cell) :
    winN (enc b) (cellN s) = check_win b s := by
  obtain ⟨c0, c1, c2, c3, c4, c5, c6, c7, c8, rfl⟩ := board9 b hb
  exact winN_enc9 c0 c1 c2 c3 c4 c5 c6 c7 c8 s

lemma fullN_enc {b : Board} (hb : b.length = 9) : fullN (enc b) = check_draw b := by
  obtain ⟨c0, c1, c2, c3, c4, c5, c6, c7, c8, rfl⟩ := board9 b hb
  exact fullN_enc9 c0 c1 c2 c3 c4 c5 c6 c7 c8

lemma movesN_enc {b : Board} (hb : b.length = 9) :
    movesN (enc b) = get_available_moves b := by
  obtain ⟨c0, c1, c2, c3, c4, c5, c6, c7, c8, rfl⟩ := board9 b hb
  exact movesN_enc9 c0 c1 c2 c3 c4 c5 c6 c7 c8

lemma enc_lt {b : Board} (hb : b.length = 9) : enc b < 19683 := by
  obtain ⟨c0, c1, c2, c3, c4, c5, c6, c7, c8, rfl⟩ := board9 b hb
  exact enc_lt9 c0 c1 c2 c3 c4 c5 c6 c7 c8

lemma enc_set {b : Board} (hb : b.length = 9) {m : Nat} (c : Cell)
    (hm : m ∈ get_available_moves b) :
    enc (b.set m c) = enc b + cellN c * pow3 m := by
  obtain ⟨hlt, he⟩ := mem_gam.1 hm
  obtain ⟨c0, c1, c2, c3, c4, c5, c6, c7, c8, rfl⟩ := board9 b hb
  exact enc_set9 c0 c1 c2 c3 c4 c5 c6 c7 c8 m c (by simpa using hlt) he

/-! Evaluation-order helpers for the fast loop. -/

lemma natCases_eq {α : Sort _} (f : Nat → α) (X : Nat) :
    (match X with | 0 => f 0 | s + 1 => f (s + 1)) = f X := by
  cases X <;> rfl

lemma loopN_cons (go : Nat → Bool → Nat) (isMax : Bool) (n m : Nat) (rest : List Nat)
    (best : Nat) :
    loopN go isMax n (m :: rest) best =
      loopN go isMax n rest (updN isMax m best
        (Nat.div (go (Nat.add n (Nat.mul (cond isMax 2 1) (pow3 m))) (Bool.not isMax)) 10)) := by
  simp only [loopN]
  exact natCases_eq
    (fun sc => loopN go isMax n rest (updN isMax m best sc)) _

lemma mem_movesN {n m : Nat} (hm : m ∈ movesN n) : m ≤ 8 ∧ d3 n m = 0 := by
  obtain ⟨hmem, hbeq⟩ := List.mem_filter.1 hm
  refine ⟨?_, nat_beq_iff _ _ |>.1 hbeq⟩
  simp at hmem
  omega

lemma updN_div_le (isMax : Bool) (m best score : Nat) (hb : best / 10 ≤ 4)
    (hs : score ≤ 4) (hm : m ≤ 9) :
    updN isMax m best score / 10 ≤ 4 ∧
      (updN isMax m best score = best ∨ updN isMax m best score = score * 10 + m) := by
  unfold updN
  rcases Bool.eq_false_or_eq_true
    (cond isMax (Nat.blt (Nat.div best 10) score) (Nat.blt score (Nat.div best 10))) with
    h | h
  · rw [h]
    simp only [cond_true]
    constructor
    · rw [nat_mul_eq, nat_add_eq]
      omega
    · rw [nat_mul_eq, nat_add_eq]
      exact Or.inr rfl
  · rw [h]
    simp only [cond_false]
    exact ⟨hb, Or.inl (by first | rfl | trivial)⟩

lemma loopN_range (go : Nat → Bool → Nat) (isMax : Bool) (n : Nat)
    (hgo : ∀ c im, go c im / 10 ≤ 4) :
    ∀ (moves : List Nat) (best : Nat), (∀ m ∈ moves, m ≤ 8) → best / 10 ≤ 4 →
      best % 10 ≤ 9 →
      loopN go isMax n moves best / 10 ≤ 4 ∧ loopN go isMax n moves best % 10 ≤ 9 := by
  intro moves
  induction moves with
  | nil => intro best _ h1 h2; exact ⟨h1, h2⟩
  | cons m rest ih =>
    intro best hm h1 h2
    rw [loopN_cons]
    have hm8 : m ≤ 8 := hm m (List.mem_cons_self m rest)
    have hscore : Nat.div (go (Nat.add n (Nat.mul (cond isMax 2 1) (pow3 m))) (Bool.not isMax)) 10 ≤ 4 := by
      rw [nat_div_eq]; exact hgo _ _
    obtain ⟨hd, hcase⟩ := updN_div_le isMax m best _ h1 hscore (by omega)
    apply ih _ (fun x hx => hm x (List.mem_cons_of_mem m hx)) hd
    rcases hcase with he | he
    · rw [he]; exact h2
    · rw [he]; omega

lemma fast_range : ∀ (fuel n : Nat) (isMax : Bool),
    fastF fuel n isMax / 10 ≤ 4 ∧ fastF fuel n isMax % 10 ≤ 9 := by
  intro fuel
  induction fuel with
  | zero => intro n isMax; constructor <;> simp [fastF]
  | succ fuel ih =>
    intro n isMax
    simp only [fastF]
    by_cases h1 : winN n 2 = true
    · simp [h1]
    · by_cases h2 : winN n 1 = true
      · simp [h1, h2]
      · by_cases h3 : fullN n = true
        · simp [h1, h2, h3]
        · simp only [h1, h2, h3, Bool.false_eq_true, if_false]
          apply loopN_range _ isMax n (fun c im => (ih c im).1)
          · intro m hm; exact (mem_movesN hm).1
          · cases isMax <;> simp
          · cases isMax <;> simp

/-! Equivalence of the list search and the encoded search. -/

lemma pb_decS : ∀ isMax : Bool, ∀ a < 5, ∀ b < 5,
    pbetter isMax (decS a) (decS b) = cond isMax (Nat.blt b a) (Nat.blt a b) := by
  decide

lemma decM_lt {m : Nat} (hm : m < 9) : decM m = some m := by
  have : (m == 9) = false := by simp; omega
  simp [decM, this]

lemma loop_rel (fuel : Nat) (b : Board) (hb : b.length = 9) (isMax : Bool)
    (IH : ∀ b' : Board, b'.length = 9 →
      (minimaxF fuel b' (!isMax)).2.1 = decS (fastF fuel (enc b') (!isMax) / 10)) :
    ∀ (moves : List Nat) (best : Nat) (bs : PScore) (bm : Option Nat),
      (∀ m ∈ moves, m ∈ get_available_moves b) →
      bs = decS (best / 10) → bm = decM (best % 10) → best / 10 ≤ 4 → best % 10 ≤ 9 →
      (loopSpec isMax
          (fun m => (minimaxF fuel (b.set m (mark isMax)) (!isMax)).2.1) moves bs bm).1 =
        decS (loopN (fastF fuel) isMax (enc b) moves best / 10) ∧
      (loopSpec isMax
          (fun m => (minimaxF fuel (b.set m (mark isMax)) (!isMax)).2.1) moves bs bm).2 =
        decM (loopN (fastF fuel) isMax (enc b) moves best % 10) := by
  intro moves
  induction moves with
  | nil =>
    intro best bs bm _ hbs hbm _ _
    exact ⟨hbs, hbm⟩
  | cons m rest ih =>
    intro best bs bm hv hbs hbm hb4 hb9
    have hmg : m ∈ get_available_moves b := hv m (List.mem_cons_self m rest)
    have hm9 : m < 9 := by
      have := (mem_gam.1 hmg).1
      omega
    have hlen : (b.set m (mark isMax)).length = 9 := by
      rw [List.length_set]; exact hb
    have hce : enc (b.set m (mark isMax)) =
        Nat.add (enc b) (Nat.mul (cond isMax 2 1) (pow3 m)) := by
      rw [nat_add_eq, nat_mul_eq, ← cellN_mark]
      exact enc_set hb _ hmg
    have hcs : (minimaxF fuel (b.set m (mark isMax)) (!isMax)).2.1 =
        decS (Nat.div (fastF fuel
          (Nat.add (enc b) (Nat.mul (cond isMax 2 1) (pow3 m))) (Bool.not isMax)) 10) := by
      rw [IH _ hlen, hce, nat_div_eq]
    have hsc4 : Nat.div (fastF fuel
        (Nat.add (enc b) (Nat.mul (cond isMax 2 1) (pow3 m))) (Bool.not isMax)) 10 ≤ 4 := by
      rw [nat_div_eq]
      exact (fast_range fuel _ _).1
    have hcmp : pbetter isMax
        (decS (Nat.div (fastF fuel
          (Nat.add (enc b) (Nat.mul (cond isMax 2 1) (pow3 m))) (Bool.not isMax)) 10))
        (decS (best / 10)) =
        cond isMax
          (Nat.blt (best / 10) (Nat.div (fastF fuel
            (Nat.add (enc b) (Nat.mul (cond isMax 2 1) (pow3 m))) (Bool.not isMax)) 10))
          (Nat.blt (Nat.div (fastF fuel
            (Nat.add (enc b) (Nat.mul (cond isMax 2 1) (pow3 m))) (Bool.not isMax)) 10)
            (best / 10)) :=
      pb_decS isMax _ (by omega) _ (by omega)
    rw [loopN_cons]
    simp only [loopSpec, hcs, hbs, hcmp]
    set scN := Nat.div (fastF fuel
      (Nat.add (enc b) (Nat.mul (cond isMax 2 1) (pow3 m))) (Bool.not isMax)) 10 with hscN
    have hv2 : ∀ x ∈ rest, x ∈ get_available_moves b :=
      fun x hx => hv x (List.mem_cons_of_mem m hx)
    have hdivq : (scN * 10 + m) / 10 = scN := by omega
    have hmodq : (scN * 10 + m) % 10 = m := by omega
    rcases Bool.eq_false_or_eq_true
      (cond isMax (Nat.blt (best / 10) scN) (Nat.blt scN (best / 10))) with
      hcond | hcond
    · rw [hcond]
      simp only [if_true]
      have hupd : updN isMax m best scN = scN * 10 + m := by
        unfold updN
        rw [nat_div_eq best 10, hcond]
        simp only [cond_true, nat_mul_eq, nat_add_eq]
      rw [hupd]
      exact ih (scN * 10 + m) (decS scN) (some m) hv2
        (by rw [hdivq]) (by rw [hmodq]; exact (decM_lt hm9).symm)
        (by rw [hdivq]; exact hsc4) (by omega)
    · rw [hcond]
      simp only [Bool.false_eq_true, if_false]
      have hupd : updN isMax m best scN = best := by
        unfold updN
        rw [nat_div_eq best 10, hcond]
        simp only [cond_false]
      rw [hupd]
      exact ih best (decS (best / 10)) bm hv2 rfl hbm hb4 hb9

lemma minimaxF_fastF : ∀ (fuel : Nat) (b : Board), b.length = 9 → ∀ isMax : Bool,
    (minimaxF fuel b isMax).2.1 = decS (fastF fuel (enc b) isMax / 10) ∧
    (minimaxF fuel b isMax).2.2 = decM (fastF fuel (enc b) isMax % 10) := by
  intro fuel
  induction fuel with
  | zero =>
    intro b hb isMax
    constructor <;> simp [minimaxF, fastF, decS, decM]
  | succ fuel ih =>
    intro b hb isMax
    have hw2 : winN (enc b) 2 = check_win b Cell.MarkB := winN_enc hb Cell.MarkB
    have hw1 : winN (enc b) 1 = check_win b Cell.MarkA := winN_enc hb Cell.MarkA
    have hf : fullN (enc b) = check_draw b := fullN_enc hb
    by_cases h1 : check_win b Cell.MarkB = true
    · simp only [minimaxF, fastF, hw2, h1, if_true]
      exact ⟨rfl, rfl⟩
    · by_cases h2 : check_win b Cell.MarkA = true
      · simp only [minimaxF, fastF, hw2, hw1, h1, h2, Bool.false_eq_true, if_false, if_true]
        exact ⟨rfl, rfl⟩
      · by_cases h3 : check_draw b = true
        · simp only [minimaxF, fastF, hw2, hw1, hf, h1, h2, h3, Bool.false_eq_true,
            if_false, if_true]
          exact ⟨rfl, rfl⟩
        · simp only [Bool.not_eq_true] at h1 h2 h3
          simp only [minimaxF, fastF, hw2, hw1, hf, h1, h2, h3, Bool.false_eq_true, if_false]
          have hsp := loop_to_spec (minimaxF fuel) (minimaxF_frame fuel) isMax
            (get_available_moves b) b (if isMax then PScore.negInf else PScore.posInf)
            none gam_all_empty
          have hrel := loop_rel fuel b hb isMax (fun b' hb' => (ih b' hb' (!isMax)).1)
            (get_available_moves b) (cond isMax 9 49)
            (if isMax then PScore.negInf else PScore.posInf) none
            (fun m hm => hm)
            (by cases isMax <;> rfl) (by cases isMax <;> rfl)
            (by cases isMax <;> decide) (by cases isMax <;> decide)
          rw [movesN_enc hb]
          constructor
          · rw [show (minimaxLoop (minimaxF fuel) isMax b (get_available_moves b)
                (if isMax then PScore.negInf else PScore.posInf) none).2.1 =
                ((minimaxLoop (minimaxF fuel) isMax b (get_available_moves b)
                (if isMax then PScore.negInf else PScore.posInf) none).2).1 from rfl, hsp]
            exact hrel.1
          · rw [show (minimaxLoop (minimaxF fuel) isMax b (get_available_moves b)
                (if isMax then PScore.negInf else PScore.posInf) none).2.2 =
                ((minimaxLoop (minimaxF fuel) isMax b (get_available_moves b)
                (if isMax then PScore.negInf else PScore.posInf) none).2).2 from rfl, hsp]
            exact hrel.2

/-! From the decidable sweep to correctness of the tables. -/

lemma fN_eq (f : Nat → Bool) (x : Nat) : fN f x = f x := by
  cases x <;> rfl

lemma checkBatch_sound {t1 t2 lo : Nat} (h : checkBatch t1 t2 lo = true) :
    ∀ p, lo ≤ p → p < lo + 16 → checkPos t1 t2 p = true := by
  intro p h1 h2
  rw [checkBatch, fN_eq] at h
  simp only [nat_add_eq, Bool.and_eq_true] at h
  have hp : p = lo ∨ p = lo + 1 ∨ p = lo + 2 ∨ p = lo + 3 ∨ p = lo + 4 ∨ p = lo + 5 ∨
      p = lo + 6 ∨ p = lo + 7 ∨ p = lo + 8 ∨ p = lo + 9 ∨ p = lo + 10 ∨ p = lo + 11 ∨
      p = lo + 12 ∨ p = lo + 13 ∨ p = lo + 14 ∨ p = lo + 15 := by omega
  rcases hp with rfl | rfl | rfl | rfl | rfl | rfl | rfl | rfl | rfl | rfl | rfl | rfl |
    rfl | rfl | rfl | rfl <;> tauto

lemma sweepB_sound : ∀ (f i k : Nat), sweepB tblMax tblMin f i k = true →
    ∀ p, 16 * i ≤ p → p < 16 * (i + k) → checkPos tblMax tblMin p = true := by
  intro f
  induction f with
  | zero =>
    intro i k h p h1 h2
    simp only [sweepB, Bool.or_eq_true, Bool.and_eq_true] at h
    rcases h with h0 | ⟨h1k, hb⟩
    · rw [nat_beq_iff] at h0; omega
    · rw [nat_beq_iff] at h1k
      subst h1k
      rw [nat_mul_eq] at hb
      exact checkBatch_sound hb p h1 (by omega)
  | succ f ih =>
    intro i k h p h1 h2
    simp only [sweepB] at h
    rcases Bool.eq_false_or_eq_true (Nat.ble k 1) with hk | hk
    · rw [hk] at h
      simp only [cond_true, Bool.or_eq_true, Bool.and_eq_true] at h
      rcases h with h0 | ⟨h1k, hb⟩
      · rw [nat_beq_iff] at h0; omega
      · rw [nat_beq_iff] at h1k
        subst h1k
        rw [nat_mul_eq] at hb
        exact checkBatch_sound hb p h1 (by omega)
    · rw [hk] at h
      simp only [cond_false, Bool.and_eq_true] at h
      have hk2 : ¬ k ≤ 1 := fun hle => by simp [(nat_ble_iff k 1).2 hle] at hk
      rw [nat_div_eq, nat_add_eq, nat_sub_eq] at h
      rcases h with ⟨hL, hR⟩
      by_cases hp : p < 16 * (i + k / 2)
      · exact ih i (k / 2) hL p h1 hp
      · exact ih (i + k / 2) (k - k / 2) hR p (by omega) (by omega)

lemma sweepPart_all : ∀ j, j < 30 → sweepB tblMax tblMin 11 (41 * j) 41 = true := by
  intro j hj
  interval_cases j
  · exact sweepPart0
  · exact sweepPart1
  · exact sweepPart2
  · exact sweepPart3
  · exact sweepPart4
  · exact sweepPart5
  · exact sweepPart6
  · exact sweepPart7
  · exact sweepPart8
  · exact sweepPart9
  · exact sweepPart10
  · exact sweepPart11
  · exact sweepPart12
  · exact sweepPart13
  · exact sweepPart14
  · exact sweepPart15
  · exact sweepPart16
  · exact sweepPart17
  · exact sweepPart18
  · exact sweepPart19
  · exact sweepPart20
  · exact sweepPart21
  · exact sweepPart22
  · exact sweepPart23
  · exact sweepPart24
  · exact sweepPart25
  · exact sweepPart26
  · exact sweepPart27
  · exact sweepPart28
  · exact sweepPart29

lemma sweep_sound : ∀ p, p < 19683 → checkPos tblMax tblMin p = true := by
  intro p hp
  by_cases hlt : p < 19680
  · have hj : p / 656 < 30 := by omega
    have hs := sweepPart_all (p / 656) hj
    exact sweepB_sound 11 (41 * (p / 656)) 41 hs p (by omega) (by omega)
  · have hcase : p = 19680 ∨ p = 19681 ∨ p = 19682 := by omega
    rcases hcase with rfl | rfl | rfl
    · exact sweepTail0
    · exact sweepTail1
    · exact sweepTail2

lemma checkPos_elim {n : Nat} (h : checkPos tblMax tblMin n = true) :
    (winN n 2 = true → lkT tblMax n = 39 ∧ lkT tblMin n = 39) ∧
    (winN n 2 = false → winN n 1 = true → lkT tblMax n = 19 ∧ lkT tblMin n = 19) ∧
    (winN n 2 = false → winN n 1 = false → fullN n = true →
      lkT tblMax n = 29 ∧ lkT tblMin n = 29) ∧
    (winN n 2 = false → winN n 1 = false → fullN n = false →
      lkT tblMax n = foldT tblMin true n ∧ lkT tblMin n = foldT tblMax false n) := by
  unfold checkPos at h
  refine ⟨fun h1 => ?_, fun h1 h2 => ?_, fun h1 h2 h3 => ?_, fun h1 h2 h3 => ?_⟩
  · rw [h1] at h
    simp only [cond_true, Bool.and_eq_true] at h
    exact ⟨(nat_beq_iff _ _).1 h.1, (nat_beq_iff _ _).1 h.2⟩
  · rw [h1, h2] at h
    simp only [cond_false, cond_true, Bool.and_eq_true] at h
    exact ⟨(nat_beq_iff _ _).1 h.1, (nat_beq_iff _ _).1 h.2⟩
  · rw [h1, h2, h3] at h
    simp only [cond_false, cond_true, Bool.and_eq_true] at h
    exact ⟨(nat_beq_iff _ _).1 h.1, (nat_beq_iff _ _).1 h.2⟩
  · rw [h1, h2, h3] at h
    simp only [cond_false, Bool.and_eq_true] at h
    exact ⟨(nat_beq_iff _ _).1 h.1, (nat_beq_iff _ _).1 h.2⟩

lemma loopN_congr (go1 go2 : Nat → Bool → Nat) (isMax : Bool) (n : Nat) :
    ∀ (moves : List Nat) (best : Nat),
      (∀ m ∈ moves,
        go1 (Nat.add n (Nat.mul (cond isMax 2 1) (pow3 m))) (Bool.not isMax) =
          go2 (Nat.add n (Nat.mul (cond isMax 2 1) (pow3 m))) (Bool.not isMax)) →
      loopN go1 isMax n moves best = loopN go2 isMax n moves best := by
  intro moves
  induction moves with
  | nil => intro best _; rfl
  | cons m rest ih =>
    intro best hpt
    rw [loopN_cons, loopN_cons, hpt m (List.mem_cons_self m rest)]
    exact ih _ (fun x hx => hpt x (List.mem_cons_of_mem m hx))

lemma loopN_filter (go : Nat → Bool → Nat) (isMax : Bool) (n : Nat) :
    ∀ (l : List Nat) (best : Nat),
      loopN go isMax n (List.filter (fun i => Nat.beq (d3 n i) 0) l) best =
        List.foldl (fun acc m => cond (Nat.beq (d3 n m) 0)
          (updN isMax m acc (Nat.div
            (go (Nat.add n (Nat.mul (cond isMax 2 1) (pow3 m))) (Bool.not isMax)) 10)) acc)
          best l := by
  intro l
  induction l with
  | nil => intro best; rfl
  | cons a l ih =>
    intro best
    simp only [List.filter_cons, List.foldl_cons]
    rcases Bool.eq_false_or_eq_true (Nat.beq (d3 n a) 0) with ha | ha
    · rw [ha]
      simp only [if_true, cond_true]
      rw [loopN_cons]
      exact ih _
    · rw [ha]
      simp only [Bool.false_eq_true, if_false, cond_false]
      exact ih best

lemma foldT_eq_loopN (tbl : Nat) (isMax : Bool) (n : Nat) :
    foldT tbl isMax n = loopN (fun c _ => lkT tbl c) isMax n (movesN n) (cond isMax 9 49) := by
  rw [show movesN n = List.filter (fun i => Nat.beq (d3 n i) 0) [0, 1, 2, 3, 4, 5, 6, 7, 8]
    from rfl, loopN_filter]
  simp only [List.foldl]
  rfl

lemma table_correct : ∀ (cnt : Nat) (b : Board), b.count Cell.Empty = cnt → b.length = 9 →
    ∀ (isMax : Bool) (fuel : Nat), cnt < fuel →
    fastF fuel (enc b) isMax = lkT (cond isMax tblMax tblMin) (enc b) := by
  intro cnt
  induction cnt using Nat.strong_induction_on with
  | _ cnt ih =>
    intro b hcnt hb isMax fuel hfuel
    obtain ⟨g, rfl⟩ : ∃ g, fuel = g + 1 := ⟨fuel - 1, by omega⟩
    have hcp := checkPos_elim (sweep_sound (enc b) (enc_lt hb))
    have hw2 : winN (enc b) 2 = check_win b Cell.MarkB := winN_enc hb Cell.MarkB
    have hw1 : winN (enc b) 1 = check_win b Cell.MarkA := winN_enc hb Cell.MarkA
    have hf : fullN (enc b) = check_draw b := fullN_enc hb
    by_cases h1 : check_win b Cell.MarkB = true
    · have hv : winN (enc b) 2 = true := by rw [hw2]; exact h1
      simp only [fastF, hv, if_true]
      rcases hcp.1 hv with ⟨ha, hbm⟩
      cases isMax
      · simp [hbm]
      · simp [ha]
    · by_cases h2 : check_win b Cell.MarkA = true
      · have hv2 : winN (enc b) 2 = false := by rw [hw2]; simpa using h1
        have hv1 : winN (enc b) 1 = true := by rw [hw1]; exact h2
        simp only [fastF, hv2, hv1, Bool.false_eq_true, if_false, if_true]
        rcases hcp.2.1 hv2 hv1 with ⟨ha, hbm⟩
        cases isMax
        · simp [hbm]
        · simp [ha]
      · by_cases h3 : check_draw b = true
        · have hv2 : winN (enc b) 2 = false := by rw [hw2]; simpa using h1
          have hv1 : winN (enc b) 1 = false := by rw [hw1]; simpa using h2
          have hv3 : fullN (enc b) = true := by rw [hf]; exact h3
          simp only [fastF, hv2, hv1, hv3, Bool.false_eq_true, if_false, if_true]
          rcases hcp.2.2.1 hv2 hv1 hv3 with ⟨ha, hbm⟩
          cases isMax
          · simp [hbm]
          · simp [ha]
        · have hv2 : winN (enc b) 2 = false := by rw [hw2]; simpa using h1
          have hv1 : winN (enc b) 1 = false := by rw [hw1]; simpa using h2
          have hv3 : fullN (enc b) = false := by rw [hf]; simpa using h3
          simp only [Bool.not_eq_true] at h1 h2 h3
          simp only [fastF, hv2, hv1, hv3, Bool.false_eq_true, if_false]
          rcases hcp.2.2.2 hv2 hv1 hv3 with ⟨ha, hbm⟩
          have hchild : ∀ m ∈ movesN (enc b),
              fastF g (Nat.add (enc b) (Nat.mul (cond isMax 2 1) (pow3 m))) (Bool.not isMax) =
                lkT (cond isMax tblMin tblMax)
                  (Nat.add (enc b) (Nat.mul (cond isMax 2 1) (pow3 m))) := by
            intro m hm
            have hmg : m ∈ get_available_moves b := by rwa [movesN_enc hb] at hm
            have hce : Nat.add (enc b) (Nat.mul (cond isMax 2 1) (pow3 m)) =
                enc (b.set m (mark isMax)) := by
              rw [nat_add_eq, nat_mul_eq, ← cellN_mark]
              exact (enc_set hb _ hmg).symm
            have hlen : (b.set m (mark isMax)).length = 9 := by
              rw [List.length_set]; exact hb
            have hcc := count_child isMax hmg
            have hcnt2 : (b.set m (mark isMax)).count Cell.Empty = cnt - 1 := by omega
            have hlt : cnt - 1 < cnt := by
              rcases Nat.eq_zero_or_pos cnt with h0 | h0
              · exfalso
                rw [h0] at hcnt
                exact absurd ((draw_iff_count b).2 hcnt) (by simp [h3])
              · omega
            rw [hce, ih (cnt - 1) hlt _ hcnt2 hlen (!isMax) g (by omega)]
            cases isMax <;> rfl
          cases isMax
          · simp only [cond_false] at hchild ⊢
            rw [hbm, foldT_eq_loopN]
            simp only [cond_false]
            exact loopN_congr _ _ false (enc b) (movesN (enc b)) 49 hchild
          · simp only [cond_true] at hchild ⊢
            rw [ha, foldT_eq_loopN]
            simp only [cond_true]
            exact loopN_congr _ _ true (enc b) (movesN (enc b)) 9 hchild

/-- The search on any 9-cell board is read off the tables. -/
lemma minimax_table {b : Board} (hb : b.length = 9) (isMax : Bool) :
    (minimax b isMax).2.1 = decS (lkT (cond isMax tblMax tblMin) (enc b) / 10) ∧
    (minimax b isMax).2.2 = decM (lkT (cond isMax tblMax tblMin) (enc b) % 10) := by
  have he := minimaxF_fastF (b.count Cell.Empty + 1) b hb isMax
  have ht := table_correct (b.count Cell.Empty) b rfl hb isMax
    (b.count Cell.Empty + 1) (by omega)
  rw [ht] at he
  exact he

lemma emptyBoard_length : emptyBoard.length = 9 := by decide

lemma enc_emptyBoard : enc emptyBoard = 0 := by decide

set_option maxHeartbeats 1000000 in
lemma tblMax_at_zero : lkT tblMax 0 = 20 := by decide

set_option maxHeartbeats 1000000 in
lemma tblMin_at_zero : lkT tblMin 0 = 20 := by decide

/-- C3: the best score is updated by strict comparison, so among equal-scoring
candidates the lowest index (the first explored) is kept: the returned move's
child score equals the returned score and no smaller candidate index achieves
it; on the empty board with the maximizing side to move the search returns
score 0 and move 0. -/
theorem claim_c3_tie_break :
    (∀ (b : Board) (isMax : Bool) (k : Nat), (minimax b isMax).2.2 = some k →
      k ∈ get_available_moves b ∧
      (minimax (b.set k (mark isMax)) (!isMax)).2.1 = (minimax b isMax).2.1 ∧
      ∀ j ∈ get_available_moves b, j < k →
        (minimax (b.set j (mark isMax)) (!isMax)).2.1 ≠ (minimax b isMax).2.1) ∧
    (minimax emptyBoard true).2.1 = PScore.fin 0 ∧
    (minimax emptyBoard true).2.2 = some 0 := by
  refine ⟨fun b isMax k hk => minimax_first_best hk, ?_, ?_⟩
  · rw [(minimax_table emptyBoard_length true).1, enc_emptyBoard]
    simp only [cond_true, tblMax_at_zero]
    rfl
  · rw [(minimax_table emptyBoard_length true).2, enc_emptyBoard]
    simp only [cond_true, tblMax_at_zero]
    rfl

/-- Witness for C3 on a two-empties board where move 5 wins immediately. -/
theorem claim_c3_witness :
    5 ∈ get_available_moves [Cell.MarkA, Cell.MarkA, Cell.Empty, Cell.MarkB, Cell.MarkB,
      Cell.Empty, Cell.MarkA, Cell.MarkB, Cell.MarkA] ∧
    (minimax ([Cell.MarkA, Cell.MarkA, Cell.Empty, Cell.MarkB, Cell.MarkB,
      Cell.Empty, Cell.MarkA, Cell.MarkB, Cell.MarkA].set 5 (mark true)) (!true)).2.1 =
      (minimax [Cell.MarkA, Cell.MarkA, Cell.Empty, Cell.MarkB, Cell.MarkB,
        Cell.Empty, Cell.MarkA, Cell.MarkB, Cell.MarkA] true).2.1 ∧
    ∀ j ∈ get_available_moves [Cell.MarkA, Cell.MarkA, Cell.Empty, Cell.MarkB, Cell.MarkB,
      Cell.Empty, Cell.MarkA, Cell.MarkB, Cell.MarkA], j < 5 →
      (minimax ([Cell.MarkA, Cell.MarkA, Cell.Empty, Cell.MarkB, Cell.MarkB,
        Cell.Empty, Cell.MarkA, Cell.MarkB, Cell.MarkA].set j (mark true)) (!true)).2.1 ≠
        (minimax [Cell.MarkA, Cell.MarkA, Cell.Empty, Cell.MarkB, Cell.MarkB,
          Cell.Empty, Cell.MarkA, Cell.MarkB, Cell.MarkA] true).2.1 :=
  claim_c3_tie_break.1 _ true 5 (by decide)

/-! The computer never loses: invariant along reachable states. -/

lemma pbetter_false_eq (s b : PScore) : pbetter false s b = PScore.ltb s b := by
  simp [pbetter]

lemma ltb_fin_iff (a b : Int) : PScore.ltb (PScore.fin a) (PScore.fin b) = true ↔ a < b := by
  simp [PScore.ltb]

lemma make_move_markA (b : Board) (m : Nat) :
    make_move b m Cell.MarkA = b.set m (mark false) := rfl

lemma make_move_markB (b : Board) (m : Nat) :
    make_move b m Cell.MarkB = b.set m (mark true) := rfl

/-- The human-to-move child bound: on a live human-to-move board, no human move
reaches a child whose maximizing value beats (is below) the minimizing value. -/
lemma human_child_no_beat {b : Board} {m : Nat}
    (hB : check_win b Cell.MarkB = false) (hA : check_win b Cell.MarkA = false)
    (hD : check_draw b = false) (hm : m ∈ get_available_moves b) :
    pbetter false ((minimax (b.set m (mark false)) true).2.1) ((minimax b false).2.1)
      = false := by
  have hsp := minimax_nonterminal (b := b) false hB hA hD
  have hnb0 := @loopSpec_no_beat false
    (fun x => (minimaxF (b.count Cell.Empty) (b.set x (mark false)) (!false)).2.1)
    (get_available_moves b) (if false then PScore.negInf else PScore.posInf) none m hm
  have hnb : pbetter false
      ((minimaxF (b.count Cell.Empty) (b.set m (mark false)) (!false)).2.1)
      ((loopSpec false
        (fun x => (minimaxF (b.count Cell.Empty) (b.set x (mark false)) (!false)).2.1)
        (get_available_moves b) (if false then PScore.negInf else PScore.posInf) none).1)
      = false := hnb0
  have hfront : (loopSpec false
      (fun x => (minimaxF (b.count Cell.Empty) (b.set x (mark false)) (!false)).2.1)
      (get_available_moves b) (if false then PScore.negInf else PScore.posInf) none).1 =
      (minimax b false).2.1 := by
    rw [show (minimax b false).2.1 = ((minimax b false).2).1 from rfl, hsp]
  rw [hfront] at hnb
  have hcs : (minimaxF (b.count Cell.Empty) (b.set m (mark false)) (!false)).2.1 =
      (minimax (b.set m (mark false)) true).2.1 := by
    rw [minimax_child_eq false hm]
    rfl
  rw [hcs] at hnb
  exact hnb

lemma reach_main : ∀ {b : Board} {g : GState}, Reach b g →
    b.length = 9 ∧
    (g = GState.play Turn.human →
      check_win b Cell.MarkA = false ∧ check_win b Cell.MarkB = false ∧
      check_draw b = false ∧
      ((minimax b false).2.1 = PScore.fin 0 ∨ (minimax b false).2.1 = PScore.fin 1)) ∧
    (g = GState.play Turn.computer →
      check_win b Cell.MarkA = false ∧ check_win b Cell.MarkB = false ∧
      check_draw b = false ∧
      ((minimax b true).2.1 = PScore.fin 0 ∨ (minimax b true).2.1 = PScore.fin 1)) ∧
    (g = GState.over →
      check_win b Cell.MarkA = false ∧
        (check_win b Cell.MarkB = true ∨ check_draw b = true)) := by
  intro b g h
  induction h with
  | init =>
    refine ⟨by decide, fun _ => ⟨by decide, by decide, by decide, ?_⟩,
      fun hcontra => by simp at hcontra, fun hcontra => by simp at hcontra⟩
    rw [(minimax_table emptyBoard_length false).1, enc_emptyBoard]
    simp only [cond_false, tblMin_at_zero]
    exact Or.inl rfl
  | @humanCont b0 m0 hr hm hw hd ih =>
    obtain ⟨hA, hB, hD, hsok⟩ := ih.2.1 rfl
    have hlen : (make_move b0 m0 Cell.MarkA).length = 9 := by
      rw [make_move, List.length_set]; exact ih.1
    have hBp : check_win (make_move b0 m0 Cell.MarkA) Cell.MarkB = false := by
      by_contra hc
      simp only [Bool.not_eq_false] at hc
      rw [make_move] at hc
      rw [win_set_other (by decide) hc] at hB
      simp at hB
    have hnb := human_child_no_beat hB hA hD hm
    obtain ⟨s', hs', hs'r⟩ :=
      (minimax_fin ((b0.set m0 (mark false)).count Cell.Empty)
        (b0.set m0 (mark false)) rfl true).1
    have key : ∀ t : Int, (minimax b0 false).2.1 = PScore.fin t → 0 ≤ t →
        s' = 0 ∨ s' = 1 := by
      intro t ht ht0
      rw [hs', ht, pbetter_false_eq] at hnb
      have hlt : ¬ s' < t := fun hcon => by
        rw [(ltb_fin_iff _ _).2 hcon] at hnb
        simp at hnb
      omega
    have hsok2 : (minimax (make_move b0 m0 Cell.MarkA) true).2.1 = PScore.fin 0 ∨
        (minimax (make_move b0 m0 Cell.MarkA) true).2.1 = PScore.fin 1 := by
      rw [make_move_markA, hs']
      rcases hsok with hs | hs
      · rcases key 0 hs (by omega) with rfl | rfl
        · exact Or.inl rfl
        · exact Or.inr rfl
      · rcases key 1 hs (by omega) with rfl | rfl
        · exact Or.inl rfl
        · exact Or.inr rfl
    exact ⟨hlen, fun hcontra => by simp at hcontra,
      fun _ => ⟨hw, hBp, hd, hsok2⟩, fun hcontra => by simp at hcontra⟩
  | @humanEnd b0 m0 hr hm hend ih =>
    obtain ⟨hA, hB, hD, hsok⟩ := ih.2.1 rfl
    have hlen : (make_move b0 m0 Cell.MarkA).length = 9 := by
      rw [make_move, List.length_set]; exact ih.1
    have hBp : check_win (make_move b0 m0 Cell.MarkA) Cell.MarkB = false := by
      by_contra hc
      simp only [Bool.not_eq_false] at hc
      rw [make_move] at hc
      rw [win_set_other (by decide) hc] at hB
      simp at hB
    have hAp : check_win (make_move b0 m0 Cell.MarkA) Cell.MarkA = false := by
      by_contra hc
      simp only [Bool.not_eq_false] at hc
      have hterm := (minimax_terminal (make_move b0 m0 Cell.MarkA) true).2.1 hBp hc
      have hnb := human_child_no_beat hB hA hD hm
      have hcs1 : (minimax (b0.set m0 (mark false)) true).2.1 = PScore.fin (-1) := by
        rw [← make_move_markA, hterm]
      rw [hcs1, pbetter_false_eq] at hnb
      rcases hsok with hs | hs
      · rw [hs, (ltb_fin_iff _ _).2 (by omega)] at hnb
        simp at hnb
      · rw [hs, (ltb_fin_iff _ _).2 (by omega)] at hnb
        simp at hnb
    refine ⟨hlen, fun hcontra => by simp at hcontra, fun hcontra => by simp at hcontra,
      fun _ => ⟨hAp, ?_⟩⟩
    rcases hend with hwin | hdraw
    · rw [hwin] at hAp; simp at hAp
    · exact Or.inr hdraw
  | @compCont b0 m0 hr hc hw hd ih =>
    obtain ⟨hA, hB, hD, hsok⟩ := ih.2.2.1 rfl
    have hlen : (make_move b0 m0 Cell.MarkB).length = 9 := by
      rw [make_move, List.length_set]; exact ih.1
    have hAp : check_win (make_move b0 m0 Cell.MarkB) Cell.MarkA = false := by
      by_contra hcon
      simp only [Bool.not_eq_false] at hcon
      rw [make_move] at hcon
      rw [win_set_other (by decide) hcon] at hA
      simp at hA
    have hmove : (minimax b0 true).2.2 = some m0 := by
      rcases hmm2 : (minimax b0 true).2.2 with _ | k
      · exact absurd hmm2
          ((minimax_fin (b0.count Cell.Empty) b0 rfl true).2 hB hA hD)
      · have hg : get_computer_move b0 = some k := by simp [get_computer_move, hmm2]
        rw [hc] at hg
        exact hg.symm
    obtain ⟨hkmem, hach, _⟩ := minimax_first_best hmove
    have hsok2 : (minimax (make_move b0 m0 Cell.MarkB) false).2.1 = PScore.fin 0 ∨
        (minimax (make_move b0 m0 Cell.MarkB) false).2.1 = PScore.fin 1 := by
      rw [make_move_markB]
      rw [show (minimax (b0.set m0 (mark true)) false).2.1 =
        (minimax (b0.set m0 (mark true)) (!true)).2.1 from rfl, hach]
      exact hsok
    exact ⟨hlen, fun _ => ⟨hAp, hw, hd, hsok2⟩, fun hcontra => by simp at hcontra,
      fun hcontra => by simp at hcontra⟩
  | @compEnd b0 m0 hr hc hend ih =>
    obtain ⟨hA, hB, hD, hsok⟩ := ih.2.2.1 rfl
    have hlen : (make_move b0 m0 Cell.MarkB).length = 9 := by
      rw [make_move, List.length_set]; exact ih.1
    have hAp : check_win (make_move b0 m0 Cell.MarkB) Cell.MarkA = false := by
      by_contra hcon
      simp only [Bool.not_eq_false] at hcon
      rw [make_move] at hcon
      rw [win_set_other (by decide) hcon] at hA
      simp at hA
    exact ⟨hlen, fun hcontra => by simp at hcontra, fun hcontra => by simp at hcontra,
      fun _ => ⟨hAp, hend⟩⟩

/-- C1: in every state the game loop can reach — the human playing arbitrary
legal moves, the computer always playing `get_computer_move` — the human never
has a winning line, and a finished game is a computer win or a draw. -/
theorem claim_c1_computer_never_loses {b : Board} {g : GState} (h : Reach b g) :
    check_win b Cell.MarkA = false ∧
    (g = GState.over → check_win b Cell.MarkB = true ∨ check_draw b = true) := by
  have hm := reach_main h
  cases g with
  | play t =>
    cases t with
    | human => exact ⟨(hm.2.1 rfl).1, fun hcontra => by simp at hcontra⟩
    | computer => exact ⟨(hm.2.2.1 rfl).1, fun hcontra => by simp at hcontra⟩
  | over => exact ⟨(hm.2.2.2 rfl).1, fun _ => (hm.2.2.2 rfl).2⟩

/-- Witness for C1 at the initial position. -/
theorem claim_c1_witness :
    check_win emptyBoard Cell.MarkA = false ∧
    (GState.play Turn.human = GState.over →
      check_win emptyBoard Cell.MarkB = true ∨ check_draw emptyBoard = true) :=
  claim_c1_computer_never_loses Reach.init
